import Mathlib

/-!
Shallow embedding of the oracle-mcp-sdm-with-guardrails gateway.

The Python sources embedded here are:
  * `query_validator.py`   — `QueryValidator` (comment stripping, blocked-keyword
    and pattern checks, complexity scoring, `wrap_with_row_limit`);
  * `oracle_mcp_server.py` — `RateLimiter`, `QueryApprovalTracker`,
    `CircuitBreaker`, `validate_identifier`, and the `preview_query` /
    `query_oracle` branches of `call_tool`;
  * `oracle_jdbc.py`       — `Connection.execute` and `ConnectionPool.execute`.

Strings are modelled as `List Char` (`String.data`); Python regex searches are
modelled by explicit scanners that implement the exact patterns appearing in
the source (word boundaries via the single preceding character, greedy /
non-greedy repetition resolved as discussed at each definition).  Wall-clock
times (`time.time()`) are modelled as integers supplied explicitly; the
source only ever compares clock differences against integer thresholds, and
Python's `int()` truncation of the breaker's retry hint is the identity on
integer-valued times.
-/

/-! ## Character classes (Python `\w`, `\s`, `\d` over ASCII, as used by `re`) -/

/-- Python regex `\w` (ASCII): letters, digits, underscore. -/
def isWordChar (c : Char) : Bool :=
  c.isAlpha || c.isDigit || c = '_'

/-- Python regex `\s` / `str.strip()` whitespace (ASCII). -/
def isSpaceChar (c : Char) : Bool :=
  c = ' ' || c = '\t' || c = '\n' || c = '\r' || c = '\x0b' || c = '\x0c'

/-- Word boundary to the left of a word character: start of string or a
non-word previous character. -/
def boundaryLeft (prev : Option Char) : Bool :=
  match prev with
  | none => true
  | some p => !isWordChar p

/-- Word boundary to the right of a word character: end of string or a
non-word next character. -/
def boundaryRight (l : List Char) : Bool :=
  match l with
  | [] => true
  | c :: _ => !isWordChar c

/-- Python `str.upper()` restricted to the ASCII range used by the sources. -/
def upperL (l : List Char) : List Char := l.map Char.toUpper

/-- Python `str.lower()` restricted to the ASCII range used by the sources. -/
def lowerL (l : List Char) : List Char := l.map Char.toLower

/-- Python `str.strip()`: drop leading and trailing whitespace. -/
def pyStrip (l : List Char) : List Char :=
  ((l.dropWhile isSpaceChar).reverse.dropWhile isSpaceChar).reverse

/-- Consume the literal `pat` from the front of `l`, returning the remainder. -/
def dropLit : List Char → List Char → Option (List Char)
  | [], l => some l
  | _ :: _, [] => none
  | p :: ps, c :: cs => if c = p then dropLit ps cs else none

/-- Python `pat in s` (substring containment). -/
def containsSub (pat : List Char) : List Char → Bool
  | [] => (dropLit pat []).isSome
  | c :: rest => (dropLit pat (c :: rest)).isSome || containsSub pat rest

/-! ## Generic scanners

`scanPat p l` decides whether the matcher `p` succeeds at some position of
`l`; `p` receives the character preceding the position (for `\b`) and the
suffix starting there.  `findallCount` counts the non-overlapping
leftmost matches that `re.findall` would produce: on a match the scan resumes
after the matched span (the matcher returns the last matched character, for
subsequent boundary tests, and the remainder); otherwise it advances one
character.  Fuel is the list length; every match consumes at least one
character, so the fuel never runs out on the wrappers below. -/

def scanPat (p : Option Char → List Char → Bool) : Option Char → List Char → Bool
  | _, [] => false
  | prev, c :: rest => p prev (c :: rest) || scanPat p (some c) rest

def findallCount (m : Option Char → List Char → Option (Char × List Char)) :
    Nat → Option Char → List Char → Nat
  | 0, _, _ => 0
  | _, _, [] => 0
  | fuel + 1, prev, c :: rest =>
    match m prev (c :: rest) with
    | some (last, rest') => 1 + findallCount m fuel (some last) rest'
    | none => findallCount m fuel (some c) rest

/-! ## Comment stripping — `QueryValidator._strip_sql_comments`

`re.sub(r'--[^\n]*', '', query)` then
`re.sub(r'/\*.*?\*/', '', query, flags=re.DOTALL)`. -/

/-- Scan state for `--[^\n]*` removal: the `Bool` is "inside a single-line
comment" (a terminating newline is kept, as `[^\n]` never consumes it). -/
def stripLineAux : Bool → List Char → List Char
  | _, [] => []
  | true, c :: rest => if c = '\n' then c :: stripLineAux false rest else stripLineAux true rest
  | false, '-' :: '-' :: rest => stripLineAux true rest
  | false, c :: rest => c :: stripLineAux false rest

def stripLineComments (l : List Char) : List Char := stripLineAux false l

/-- Scan state for non-greedy `/\*.*?\*/` removal (DOTALL): a `/*` opens a
comment only when a closing `*/` exists further on; the comment ends at the
first `*/`.  An unclosed `/*` is left in place (the regex cannot match). -/
def stripBlockAux : Bool → List Char → List Char
  | _, [] => []
  | true, '*' :: '/' :: rest => stripBlockAux false rest
  | true, _ :: rest => stripBlockAux true rest
  | false, '/' :: '*' :: rest =>
    if containsSub ['*', '/'] rest then stripBlockAux true rest
    else '/' :: '*' :: stripBlockAux false rest
  | false, c :: rest => c :: stripBlockAux false rest

def stripBlockComments (l : List Char) : List Char := stripBlockAux false l

/-- `QueryValidator._strip_sql_comments`: single-line comments are removed
first, then multi-line comments. -/
def stripSqlComments (l : List Char) : List Char :=
  stripBlockComments (stripLineComments l)

/-- String-level wrapper for `_strip_sql_comments`. -/
def stripSqlCommentsStr (s : String) : String := ⟨stripSqlComments s.data⟩

/-! ## Word-bounded keyword search — the `\bKW\b` patterns -/

/-- Matcher for `\bKW\b` at the current position (`kw` consists of word
characters, so the boundaries reduce to non-word neighbours). -/
def kwMatchAt (kw : List Char) (prev : Option Char) (l : List Char) : Bool :=
  boundaryLeft prev &&
    (match dropLit kw l with
     | some rest => boundaryRight rest
     | none => false)

/-- `re.search(r'\bKW\b', s)` as a Bool. -/
def kwSearch (kw : List Char) (s : List Char) : Bool :=
  scanPat (kwMatchAt kw) none s

/-- Matcher for `\bUNION\s+ALL\b`. -/
def unionAllMatchAt (prev : Option Char) (l : List Char) : Bool :=
  boundaryLeft prev &&
    (match dropLit ['U', 'N', 'I', 'O', 'N'] l with
     | some r1 =>
       (match r1 with
        | c :: _ => isSpaceChar c
        | [] => false) &&
       (match dropLit ['A', 'L', 'L'] (r1.dropWhile isSpaceChar) with
        | some r2 => boundaryRight r2
        | none => false)
     | none => false)

/-- Matcher for `\bCROSS\s+JOIN\b`. -/
def crossJoinMatchAt (prev : Option Char) (l : List Char) : Bool :=
  boundaryLeft prev &&
    (match dropLit ['C', 'R', 'O', 'S', 'S'] l with
     | some r1 =>
       (match r1 with
        | c :: _ => isSpaceChar c
        | [] => false) &&
       (match dropLit ['J', 'O', 'I', 'N'] (r1.dropWhile isSpaceChar) with
        | some r2 => boundaryRight r2
        | none => false)
     | none => false)

/-- `QueryValidator.BLOCKED_KEYWORDS`, in source order, each with the pattern
text used in the error message and its compiled matcher. -/
def blockedPatterns : List (String × (List Char → Bool)) :=
  [("\\bDROP\\b", kwSearch "DROP".data),
   ("\\bTRUNCATE\\b", kwSearch "TRUNCATE".data),
   ("\\bDELETE\\b", kwSearch "DELETE".data),
   ("\\bINSERT\\b", kwSearch "INSERT".data),
   ("\\bUPDATE\\b", kwSearch "UPDATE".data),
   ("\\bMERGE\\b", kwSearch "MERGE".data),
   ("\\bALTER\\b", kwSearch "ALTER".data),
   ("\\bCREATE\\b", kwSearch "CREATE".data),
   ("\\bEXEC\\b", kwSearch "EXEC".data),
   ("\\bEXECUTE\\b", kwSearch "EXECUTE".data),
   ("\\bCALL\\b", kwSearch "CALL".data),
   ("\\bGRANT\\b", kwSearch "GRANT".data),
   ("\\bREVOKE\\b", kwSearch "REVOKE".data),
   ("\\bUNION\\s+ALL\\b", fun u => scanPat unionAllMatchAt none u),
   ("\\bUNION\\b", kwSearch "UNION".data)]

/-- First blocked pattern matching the (uppercased) query, with its text —
the `for pattern in self.BLOCKED_KEYWORDS` loop of `validate`. -/
def blockedHit (u : List Char) : Option String :=
  blockedPatterns.findSome? fun p => if p.2 u then some p.1 else none

/-- `QueryValidator.DANGEROUS_PATTERNS` with matchers, in source order. -/
def dangerousPatterns : List (String × (List Char → Bool)) :=
  [("\\bCROSS\\s+JOIN\\b", fun u => scanPat crossJoinMatchAt none u),
   ("\\bCARTESIAN\\b", kwSearch "CARTESIAN".data)]

def dangerousHit (u : List Char) : Option String :=
  dangerousPatterns.findSome? fun p => if p.2 u then some p.1 else none

/-- `re.match(r'^\s*(SELECT|WITH)\b', query_upper)` as a Bool. -/
def startsSelectOrWith (u : List Char) : Bool :=
  let t := u.dropWhile isSpaceChar
  (match dropLit ['S', 'E', 'L', 'E', 'C', 'T'] t with
   | some r => boundaryRight r
   | none => false) ||
  (match dropLit ['W', 'I', 'T', 'H'] t with
   | some r => boundaryRight r
   | none => false)

/-! ## FROM-clause extraction

`re.search(r'\bFROM\s+(.*?)(?:\bWHERE\b|\bGROUP\b|\bORDER\b|\bHAVING\b|$)',
query_upper, re.DOTALL)`.  The lazy group stops at the first word-bounded
terminator keyword; with no terminator, the final `$` stops the group just
before a single trailing newline, if present, otherwise at the end. -/

/-- One of the four word-bounded terminator keywords matches here. -/
def fromTermAt (prev : Option Char) (l : List Char) : Bool :=
  kwMatchAt "WHERE".data prev l || kwMatchAt "GROUP".data prev l ||
    kwMatchAt "ORDER".data prev l || kwMatchAt "HAVING".data prev l

/-- Take characters until a terminator keyword position; the Bool reports
whether a terminator was found. -/
def takeToTerm : Option Char → List Char → List Char × Bool
  | _, [] => ([], false)
  | prev, c :: rest =>
    if fromTermAt prev (c :: rest) then ([], true)
    else
      let r := takeToTerm (some c) rest
      (c :: r.1, r.2)

/-- Group 1 of the FROM-clause regex, starting from the suffix that begins
with the whitespace after `FROM`. -/
def fromGroup (afterFrom : List Char) : List Char :=
  let body := afterFrom.dropWhile isSpaceChar
  let r := takeToTerm (some ' ') body
  if r.2 then r.1
  else if r.1.getLast? = some '\n' then r.1.dropLast else r.1

/-- Scan for the leftmost `\bFROM\s+`, returning the extracted group. -/
def fromClauseAux : Option Char → List Char → Option (List Char)
  | _, [] => none
  | prev, c :: rest =>
    if boundaryLeft prev &&
        (match dropLit ['F', 'R', 'O', 'M'] (c :: rest) with
         | some r1 =>
           match r1 with
           | c1 :: _ => isSpaceChar c1
           | [] => false
         | none => false) then
      match dropLit ['F', 'R', 'O', 'M'] (c :: rest) with
      | some r1 => some (fromGroup r1)
      | none => none
    else fromClauseAux (some c) rest

/-- The FROM clause (regex group 1) of the uppercased query, if any. -/
def fromClause (u : List Char) : Option (List Char) := fromClauseAux none u

/-- `re.sub(r'\(.*?\)', '', from_clause)` — remove non-greedy parenthesised
spans; without DOTALL, a span cannot contain a newline, so a `(` with no `)`
before the next newline stays. -/
def parenCloseAhead : List Char → Bool
  | [] => false
  | c :: rest => if c = ')' then true else if c = '\n' then false else parenCloseAhead rest

def removeParensAux : Bool → List Char → List Char
  | _, [] => []
  | true, c :: rest => if c = ')' then removeParensAux false rest else removeParensAux true rest
  | false, c :: rest =>
    if c = '(' then
      if parenCloseAhead rest then removeParensAux true rest
      else c :: removeParensAux false rest
    else c :: removeParensAux false rest

def removeParens (l : List Char) : List Char := removeParensAux false l

/-- `from_clause.count(',')`. -/
def commaCount (l : List Char) : Nat := l.countP (· = ',')

/-! ## The remaining counting patterns of `validate` -/

/-- `re.search(r'\bWHERE\b', query_upper)` — `_has_where_clause`. -/
def hasWhereClause (u : List Char) : Bool := kwSearch "WHERE".data u

/-- Matcher for `\bJOIN\b` (used with `findallCount` inside the FROM span). -/
def joinMatchAt (prev : Option Char) (l : List Char) : Option (Char × List Char) :=
  if kwMatchAt "JOIN".data prev l then
    match dropLit ['J', 'O', 'I', 'N'] l with
    | some rest => some ('N', rest)
    | none => none
  else none

/-- `len(re.findall(r'\bJOIN\b', from_clause))`. -/
def joinCount (l : List Char) : Nat := findallCount joinMatchAt l.length none l

/-- `_check_implicit_cartesian` — penalty and warning from comma-separated
tables in the FROM clause (parenthesised subqueries removed first). -/
def implicitCartesian (u : List Char) : Nat × List String :=
  match fromClause u with
  | none => (0, [])
  | some fc =>
    let cc := commaCount (removeParens fc)
    if cc > 0 then
      (cc * 20,
       [s!"Detected {cc + 1} comma-separated tables in FROM clause. This can create cartesian products. Use explicit JOIN syntax."])
    else (0, [])

/-- `_count_tables`: 1 + commas + JOIN occurrences in the FROM span (1 when
there is no FROM clause). -/
def countTables (u : List Char) : Nat :=
  match fromClause u with
  | none => 1
  | some fc =>
    let cleaned := removeParens fc
    1 + commaCount cleaned + joinCount cleaned

/-- Scan the rest of the current line for a word-bounded `ON` — the `.*\bON\b`
tail of `re.search(r'\bJOIN\b.*\bON\b', query_upper)` (no DOTALL: `.` cannot
cross a newline). -/
def scanOnSameLine : Option Char → List Char → Bool
  | _, [] => false
  | prev, c :: rest =>
    if kwMatchAt "ON".data prev (c :: rest) then true
    else if c = '\n' then false
    else scanOnSameLine (some c) rest

/-- `re.search(r'\bJOIN\b.*\bON\b', query_upper)`. -/
def joinOnSearch (u : List Char) : Bool :=
  scanPat
    (fun prev l =>
      boundaryLeft prev &&
        (match dropLit ['J', 'O', 'I', 'N'] l with
         | some r => boundaryRight r && scanOnSameLine (some 'N') r
         | none => false))
    none u

/-- `re.search(r'\bSELECT\s+\*', query_upper)`. -/
def selectStarSearch (u : List Char) : Bool :=
  scanPat
    (fun prev l =>
      boundaryLeft prev &&
        (match dropLit ['S', 'E', 'L', 'E', 'C', 'T'] l with
         | some r =>
           (match r with
            | c :: _ => isSpaceChar c
            | [] => false) &&
           (r.dropWhile isSpaceChar).head? = some '*'
         | none => false))
    none u

/-- Matcher for `\(\s*SELECT\s+` (subquery detection); the greedy `\s+` tail
is consumed whole. -/
def subqueryMatchAt (_ : Option Char) (l : List Char) : Option (Char × List Char) :=
  match l with
  | '(' :: rest =>
    match dropLit ['S', 'E', 'L', 'E', 'C', 'T'] (rest.dropWhile isSpaceChar) with
    | some r =>
      match r with
      | c :: _ => if isSpaceChar c then some (' ', r.dropWhile isSpaceChar) else none
      | [] => none
    | none => none
  | _ => none

/-- `len(re.findall(r'\(\s*SELECT\s+', query_upper))`. -/
def subqueryCount (u : List Char) : Nat := findallCount subqueryMatchAt u.length none u

/-- Matcher for `\bWITH\s+\w+\s+AS\s*\(` (CTE detection). -/
def cteMatchAt (prev : Option Char) (l : List Char) : Option (Char × List Char) :=
  if boundaryLeft prev then
    match dropLit ['W', 'I', 'T', 'H'] l with
    | some r1 =>
      match r1 with
      | c1 :: _ =>
        if isSpaceChar c1 then
          let r2 := r1.dropWhile isSpaceChar
          match r2 with
          | c2 :: _ =>
            if isWordChar c2 then
              let r3 := r2.dropWhile isWordChar
              match r3 with
              | c3 :: _ =>
                if isSpaceChar c3 then
                  match dropLit ['A', 'S'] (r3.dropWhile isSpaceChar) with
                  | some r4 =>
                    match r4.dropWhile isSpaceChar with
                    | '(' :: r5 => some ('(', r5)
                    | _ => none
                  | none => none
                else none
              | [] => none
            else none
          | [] => none
        else none
      | [] => none
    | none => none
  else none

/-- `len(re.findall(r'\bWITH\s+\w+\s+AS\s*\(', query_upper))`. -/
def cteCount (u : List Char) : Nat := findallCount cteMatchAt u.length none u

/-- Matcher for a window-function pattern `\bNAME\s*\(`. -/
def windowMatchAt (name : List Char) (prev : Option Char) (l : List Char) :
    Option (Char × List Char) :=
  if boundaryLeft prev then
    match dropLit name l with
    | some r =>
      match r.dropWhile isSpaceChar with
      | '(' :: r2 => some ('(', r2)
      | _ => none
    | none => none
  else none

/-- The ten window-function names of `validate`, in source order. -/
def windowFunctionNames : List String :=
  ["ROW_NUMBER", "RANK", "DENSE_RANK", "NTILE", "LAG", "LEAD",
   "FIRST_VALUE", "LAST_VALUE", "PERCENT_RANK", "CUME_DIST"]

/-- Total count over the ten `\bNAME\s*\(` patterns. -/
def windowFunctionCount (u : List Char) : Nat :=
  (windowFunctionNames.map fun n => findallCount (windowMatchAt n.data) u.length none u).sum

/-- Characters allowed in the table-name pattern `[A-Z_][A-Z0-9_]*`. -/
def isTableStartChar (c : Char) : Bool := ('A' ≤ c && c ≤ 'Z') || c = '_'

def isTableChar (c : Char) : Bool := ('A' ≤ c && c ≤ 'Z') || c.isDigit || c = '_'

/-- Matcher for `(?:FROM|JOIN)\s+([A-Z_][A-Z0-9_]*)\s+(?:AS\s+)?[A-Z_][A-Z0-9_]*`
at the current position, returning the captured table name and the remainder
after the alias.  Backtracking notes: the greedy name cannot usefully give
characters back (a shorter name would leave a word character where `\s+`
needs whitespace), and the optional `AS\s+` is taken exactly when an alias
start follows it, otherwise `AS` itself serves as the alias. -/
def tableRefMatchAt (l : List Char) : Option (List Char × List Char) :=
  let afterKw :=
    match dropLit ['F', 'R', 'O', 'M'] l with
    | some r => some r
    | none => dropLit ['J', 'O', 'I', 'N'] l
  match afterKw with
  | none => none
  | some r1 =>
    match r1 with
    | c1 :: _ =>
      if isSpaceChar c1 then
        let r2 := r1.dropWhile isSpaceChar
        match r2 with
        | c2 :: rest2 =>
          if isTableStartChar c2 then
            let name := c2 :: rest2.takeWhile isTableChar
            let r3 := rest2.dropWhile isTableChar
            match r3 with
            | c3 :: _ =>
              if isSpaceChar c3 then
                let r4 := r3.dropWhile isSpaceChar
                let viaAs :=
                  match dropLit ['A', 'S'] r4 with
                  | some r5 =>
                    match r5 with
                    | c5 :: _ =>
                      if isSpaceChar c5 then
                        match r5.dropWhile isSpaceChar with
                        | c6 :: rest6 =>
                          if isTableStartChar c6 then some (rest6.dropWhile isTableChar)
                          else none
                        | [] => none
                      else none
                    | [] => none
                  | none => none
                match viaAs with
                | some restAfterAlias => some (name, restAfterAlias)
                | none =>
                  match r4 with
                  | c4 :: rest4 =>
                    if isTableStartChar c4 then some (name, rest4.dropWhile isTableChar)
                    else none
                  | [] => none
              else none
            | [] => none
          else none
        | [] => none
      else none
    | [] => none

/-- `re.findall` for the table pattern: the captured names of the
non-overlapping leftmost matches. -/
def tableRefsAux : Nat → List Char → List (List Char)
  | 0, _ => []
  | _, [] => []
  | fuel + 1, c :: rest =>
    match tableRefMatchAt (c :: rest) with
    | some (name, rest') => name :: tableRefsAux fuel rest'
    | none => tableRefsAux fuel rest

def tableRefs (u : List Char) : List (List Char) := tableRefsAux u.length u

/-- Number of table names referenced more than once (the `Counter` scan). -/
def selfJoinCount (names : List (List Char)) : Nat :=
  (names.dedup.filter fun n => 1 < names.count n).length

/-- Matcher for `LIKE\s+['\"]%` (leading-wildcard detection; no `\b`). -/
def likeWildcardMatchAt (_ : Option Char) (l : List Char) : Option (Char × List Char) :=
  match dropLit ['L', 'I', 'K', 'E'] l with
  | some r =>
    match r with
    | c :: _ =>
      if isSpaceChar c then
        match r.dropWhile isSpaceChar with
        | q :: '%' :: rest => if q = Char.ofNat 39 || q = '"' then some ('%', rest) else none
        | _ => none
      else none
    | [] => none
  | none => none

def likeWildcardCount (u : List Char) : Nat :=
  findallCount likeWildcardMatchAt u.length none u

/-- Matcher for `\bOR\b`. -/
def orMatchAt (prev : Option Char) (l : List Char) : Option (Char × List Char) :=
  if kwMatchAt "OR".data prev l then
    match dropLit ['O', 'R'] l with
    | some rest => some ('R', rest)
    | none => none
  else none

/-- `len(re.findall(r'\bOR\b', query_upper))`. -/
def orCount (u : List Char) : Nat := findallCount orMatchAt u.length none u

/-- The aggregate tokens checked by plain substring containment. -/
def aggregateTokens : List String := ["COUNT", "SUM", "AVG", "MAX", "MIN", "GROUP BY"]

def aggregateCount (u : List Char) : Nat :=
  (aggregateTokens.filter fun t => containsSub t.data u).length

/-! ## `ValidationResult` and `QueryValidator.validate` -/

/-- `ValidationResult` of `query_validator.py` (`warnings=None` becomes `[]`
in `__post_init__`, so the field is total here). -/
structure ValidationResult where
  is_safe : Bool
  error_message : Option String := none
  warnings : List String := []
  complexity_score : Nat := 0
deriving DecidableEq, Repr

/-- Constructor options of `QueryValidator.__init__`; the server instantiates
`QueryValidator(max_complexity=50, max_rows=10000, allow_cross_joins=False)`. -/
structure QueryValidatorConfig where
  max_complexity : Nat := 50
  max_rows : Nat := 10000
  allow_cross_joins : Bool := false
deriving DecidableEq, Repr

def defaultValidator : QueryValidatorConfig := {}

/-- Steps 4–16 of `QueryValidator.validate`, operating on the uppercased,
comment-stripped query (`query_upper`).  Mirrors the statement order of the
source, including the early return of step 6 (which discards the warnings
accumulated so far, as `ValidationResult` is rebuilt with defaults). -/
def validateScored (v : QueryValidatorConfig) (u : List Char) : ValidationResult :=
  let cart := implicitCartesian u
  let tableCount := countTables u
  let w5 : List String :=
    if tableCount > 1 then
      [s!"Query involves {tableCount} tables. Ensure proper JOIN conditions exist."]
    else []
  if tableCount > 1 && !hasWhereClause u && !joinOnSearch u then
    { is_safe := false
      error_message := some "Multi-table query without WHERE clause or JOIN ON conditions detected. This could create a cartesian product." }
  else
    let w6 : List String :=
      if tableCount > 1 && !hasWhereClause u then
        ["Multi-table query without WHERE clause. Ensure JOIN conditions are sufficient."]
      else []
    let starHit := tableCount > 1 && selectStarSearch u
    let w7 : List String :=
      if starHit then
        ["SELECT * with multiple tables can be expensive. Consider specifying columns."]
      else []
    let sq := subqueryCount u
    let w8 : List String :=
      (if sq > 0 then [s!"Query contains {sq} subquery(ies). Monitor performance."] else []) ++
      (if sq > 2 then
        [s!"Deep nesting detected ({sq} subqueries). This can significantly impact performance."]
       else [])
    let cte := cteCount u
    let w9 : List String :=
      if cte > 0 then
        [s!"Query contains {cte} CTE(s) (WITH clause). CTEs can be expensive if not materialized."]
      else []
    let wf := windowFunctionCount u
    let w10 : List String :=
      if wf > 0 then
        [s!"Query contains {wf} window function(s). Window functions can be very expensive on large datasets."]
      else []
    let refs := tableRefs u
    let sj := if refs.isEmpty then 0 else selfJoinCount refs
    let w11 : List String :=
      if !refs.isEmpty && sj > 0 then
        [s!"Query contains {sj} self-join(s). Self-joins can create large intermediate result sets."]
      else []
    let lw := likeWildcardCount u
    let w12 : List String :=
      if lw > 0 then
        [s!"Query contains {lw} LIKE pattern(s) with leading wildcard (\x27%...\x27). This prevents index usage and causes full table scans."]
      else []
    let orc := orCount u
    let w13 : List String :=
      if orc > 2 then
        [s!"Query contains {orc} OR condition(s). Multiple ORs can prevent index usage and degrade performance."]
      else []
    let distinctHit := containsSub "DISTINCT".data u
    let w14 : List String :=
      if distinctHit then ["DISTINCT can be expensive on large result sets."] else []
    let agg := aggregateCount u
    let score :=
      cart.1 + tableCount * 5 + (if starHit then 10 else 0) +
        (sq * 10 + if sq > 2 then (sq - 2) * 5 else 0) + cte * 8 + wf * 12 + sj * 15 +
        lw * 10 + (if orc > 2 then (orc - 2) * 4 else 0) +
        (if distinctHit then 5 else 0) + agg * 3
    let warnings :=
      cart.2 ++ w5 ++ w6 ++ w7 ++ w8 ++ w9 ++ w10 ++ w11 ++ w12 ++ w13 ++ w14
    if score > v.max_complexity then
      { is_safe := false
        error_message := some s!"Query complexity score ({score}) exceeds maximum allowed ({v.max_complexity}). Simplify the query."
        warnings := warnings
        complexity_score := score }
    else
      { is_safe := true, warnings := warnings, complexity_score := score }

/-- Steps 1–3 of `validate`, applied to the comment-stripped query: blocked
keywords, the SELECT/WITH requirement, and the dangerous patterns. -/
def validateStripped (v : QueryValidatorConfig) (q1 : List Char) : ValidationResult :=
  let u := upperL q1
  match blockedHit u with
  | some pat =>
    { is_safe := false
      error_message := some s!"Blocked operation detected: {pat}. Only SELECT queries are allowed." }
  | none =>
    if !startsSelectOrWith u then
      { is_safe := false
        error_message := some "Only SELECT queries (including CTEs with WITH clause) are allowed." }
    else
      match (if v.allow_cross_joins then none else dangerousHit u) with
      | some pat =>
        { is_safe := false
          error_message := some s!"Dangerous pattern detected: {pat}. Cross joins and cartesian products are not allowed." }
      | none => validateScored v u

/-- `QueryValidator.validate`: strip comments, then run the checks. -/
def validate (v : QueryValidatorConfig) (q : List Char) : ValidationResult :=
  validateStripped v (stripSqlComments q)

/-- String-level wrapper for `validate` with the server's configuration. -/
def validateStr (s : String) : ValidationResult := validate defaultValidator s.data

/-! ## `_has_rownum_constraint` and `wrap_with_row_limit` -/

def isRownumOpChar (c : Char) : Bool := c = '<' || c = '>' || c = '='

/-- Matcher for `\bROWNUM\s*[<>=]+\s*\d+` (greedy repetitions; maximal
munch is exact because none of the character classes overlap). -/
def rownumNumMatchAt (prev : Option Char) (l : List Char) : Bool :=
  boundaryLeft prev &&
    (match dropLit ['R', 'O', 'W', 'N', 'U', 'M'] l with
     | some r =>
       let a := r.dropWhile isSpaceChar
       (match a with
        | c :: _ => isRownumOpChar c
        | [] => false) &&
       (match (a.dropWhile isRownumOpChar).dropWhile isSpaceChar with
        | c :: _ => c.isDigit
        | [] => false)
     | none => false)

/-- Matcher for `WHERE\s+ROWNUM\s*<=` (no word boundaries in the source). -/
def rownumWhereMatchAt (_ : Option Char) (l : List Char) : Bool :=
  match dropLit ['W', 'H', 'E', 'R', 'E'] l with
  | some r =>
    (match r with
     | c :: _ => isSpaceChar c
     | [] => false) &&
    (match dropLit ['R', 'O', 'W', 'N', 'U', 'M'] (r.dropWhile isSpaceChar) with
     | some r2 => (dropLit ['<', '='] (r2.dropWhile isSpaceChar)).isSome
     | none => false)
  | none => false

/-- `QueryValidator._has_rownum_constraint` (both regex checks, on the
uppercased query). -/
def hasRownumConstraint (q : List Char) : Bool :=
  let u := upperL q
  scanPat rownumNumMatchAt none u || scanPat rownumWhereMatchAt none u

/-- `QueryValidator.wrap_with_row_limit`.  The ORDER BY branch reproduces the
f-string template `"\nSELECT * FROM (\n    {q}\n) WHERE ROWNUM <= {max}\n"`
followed by `.strip()`. -/
def wrapWithRowLimit (v : QueryValidatorConfig) (q : List Char) : List Char :=
  let s := pyStrip q
  let u := upperL s
  if hasRownumConstraint s then s
  else if containsSub "ORDER BY".data u then
    pyStrip ("\nSELECT * FROM (\n    ".data ++ s ++ "\n) WHERE ROWNUM <= ".data ++
      (toString v.max_rows).data ++ ['\n'])
  else if containsSub "WHERE".data u then
    s ++ " AND ROWNUM <= ".data ++ (toString v.max_rows).data
  else
    s ++ " WHERE ROWNUM <= ".data ++ (toString v.max_rows).data

/-- String-level wrapper for `wrap_with_row_limit` with the server's
configuration. -/
def wrapStr (s : String) : String := ⟨wrapWithRowLimit defaultValidator s.data⟩

/-! ## `validate_identifier` (oracle_mcp_server.py)

`re.match(r'^[A-Za-z][A-Za-z0-9_$#]*$', identifier)`: the greedy class
repetition is exact (maximal munch — giving characters back can never make
`$` match), and Python's `$` also matches just before one trailing
newline. -/

/-- The identifier character class `[A-Za-z0-9_$#]`. -/
def isIdentChar (c : Char) : Bool :=
  c.isAlpha || c.isDigit || c = '_' || c = '$' || c = '#'

/-- `re.match(r'^[A-Za-z][A-Za-z0-9_$#]*$', s)` as a Bool. -/
def identRegexMatch (l : List Char) : Bool :=
  match l with
  | [] => false
  | c :: rest =>
    c.isAlpha &&
      (let rem := rest.dropWhile isIdentChar
       rem = [] || rem = ['\n'])

/-- `validate_identifier(identifier, max_length=30)`. -/
def validateIdentifier (s : String) (maxLength : Nat := 30) : Bool :=
  if s.data = [] then false
  else if s.length > maxLength then false
  else identRegexMatch s.data

/-! ## `QueryApprovalTracker` (oracle_mcp_server.py)

`hashlib.sha256(...).hexdigest()` is standard-library code outside `src/`;
it is abstracted as a parameter `sha : String → String` applied to the
normalised query, exactly as `_hash_query` composes them. -/

/-- Python `str.split()` — split on whitespace runs, discarding empties;
`acc` holds the reversed current word. -/
def pySplitAux (acc : List Char) : List Char → List (List Char)
  | [] => if acc = [] then [] else [acc.reverse]
  | c :: rest =>
    if isSpaceChar c then
      if acc = [] then pySplitAux [] rest else acc.reverse :: pySplitAux [] rest
    else pySplitAux (c :: acc) rest

def pySplit (l : List Char) : List (List Char) := pySplitAux [] l

/-- The normalisation of `_hash_query`:
`' '.join(query.strip().lower().split())`. -/
def normalizeQuery (q : String) : String :=
  ⟨(pySplit (lowerL (pyStrip q.data))).intersperse [' '] |>.flatten⟩

/-- `QueryApprovalTracker._hash_query` with the SHA-256 hex digest
abstracted as `sha`. -/
def hashQuery (sha : String → String) (q : String) : String :=
  sha (normalizeQuery q)

/-- One entry of `self.approvals` — `{query_hash, timestamp, query_preview}`. -/
structure ApprovalRecord where
  query_hash : String
  timestamp : ℤ
  query_preview : String
deriving DecidableEq, Repr

/-- `QueryApprovalTracker` state: expiry and the insertion-ordered dict. -/
structure ApprovalTracker where
  token_expiry : ℤ := 300
  approvals : List (String × ApprovalRecord) := []
deriving DecidableEq, Repr

/-- Python dict assignment `d[k] = v`: update in place if present, else
append (insertion order preserved). -/
def assocSet (k : String) (v : ApprovalRecord) :
    List (String × ApprovalRecord) → List (String × ApprovalRecord)
  | [] => [(k, v)]
  | (k', v') :: rest => if k' = k then (k, v) :: rest else (k', v') :: assocSet k v rest

/-- Python dict lookup `d.get(k)` / `k in d`. -/
def assocFind (k : String) : List (String × ApprovalRecord) → Option ApprovalRecord
  | [] => none
  | (k', v) :: rest => if k' = k then some v else assocFind k rest

/-- Python `del d[k]`: dict keys are unique, so deleting the key is the same
as dropping every pair with that key (order of the rest preserved). -/
def assocErase (k : String) (l : List (String × ApprovalRecord)) :
    List (String × ApprovalRecord) :=
  l.filter fun p => p.1 ≠ k

/-- `QueryApprovalTracker._cleanup_expired`: delete every record with
`now - timestamp > token_expiry`. -/
def cleanupExpired (tr : ApprovalTracker) (now : ℤ) : ApprovalTracker :=
  { tr with approvals := tr.approvals.filter fun p => !(now - p.2.timestamp > tr.token_expiry) }

/-- `QueryApprovalTracker.generate_approval_token`: the fresh random token
(`secrets.token_hex(16)`) is supplied as `token`; the record is stored, then
expired tokens are swept, then the token is returned. -/
def generateApprovalToken (sha : String → String) (tr : ApprovalTracker)
    (q : String) (token : String) (now : ℤ) : String × ApprovalTracker :=
  let tr1 := { tr with
    approvals := assocSet token
      ⟨hashQuery sha q, now, ⟨q.data.take 100⟩⟩ tr.approvals }
  (token, cleanupExpired tr1 now)

/-- The three failure messages of `verify_approval`, in source order. -/
def approvalMissingMsg : String :=
  "No approval token provided. You must call preview_query first and include the approval_token in your query_oracle call."

def approvalInvalidMsg : String :=
  "Invalid or expired approval token. Please call preview_query again to get a new approval token."

def approvalMismatchMsg : String :=
  "Query does not match approved query. The query you\x27re trying to execute is different from the one you previewed."

/-- `QueryApprovalTracker.verify_approval`: sweep, then check token
presence, then the query hash; on success the record is consumed.  `None`
and `""` are both falsy in Python, so a missing token is modelled as `""`. -/
def verifyApproval (sha : String → String) (tr : ApprovalTracker)
    (q token : String) (now : ℤ) : (Bool × String) × ApprovalTracker :=
  let tr1 := cleanupExpired tr now
  if token = "" then ((false, approvalMissingMsg), tr1)
  else
    match assocFind token tr1.approvals with
    | none => ((false, approvalInvalidMsg), tr1)
    | some rec =>
      if hashQuery sha q ≠ rec.query_hash then ((false, approvalMismatchMsg), tr1)
      else ((true, ""), { tr1 with approvals := assocErase token tr1.approvals })

/-! ## `RateLimiter` (oracle_mcp_server.py) -/

structure RateLimiter where
  max_requests : Nat := 60
  time_window : Nat := 60
  requests : List ℤ := []
deriving DecidableEq, Repr

/-- The `while self.requests and self.requests[0] < now - self.time_window:
popleft()` eviction loop — stops at the first timestamp inside the window. -/
def evictOld (w now : ℤ) : List ℤ → List ℤ
  | [] => []
  | t :: rest => if t < now - w then evictOld w now rest else t :: rest

/-- `RateLimiter.is_allowed`. -/
def isAllowed (rl : RateLimiter) (now : ℤ) : (Bool × String) × RateLimiter :=
  let reqs := evictOld (rl.time_window : ℤ) now rl.requests
  if reqs.length ≥ rl.max_requests then
    ((false, s!"Rate limit exceeded: {rl.max_requests} requests per {rl.time_window} seconds"),
     { rl with requests := reqs })
  else
    ((true, ""), { rl with requests := reqs ++ [now] })

/-! ## `CircuitBreaker` (oracle_mcp_server.py)

`call` is split at its lock boundaries: `gateCheck` is the first locked
section (state check, possible OPEN → HALF_OPEN transition, or a timed
rejection), and `onSuccess` / `onFailure` are the post-call locked sections.
`time.time()` is sampled once per locked section, supplied as an argument.
An OPEN breaker with `last_failure_time = None` would raise a `TypeError`
in Python; that unreachable situation is the `pythonTypeError` step. -/

inductive BreakerState where
  | CLOSED
  | OPEN
  | HALF_OPEN
deriving DecidableEq, Repr

structure CircuitBreaker where
  failure_threshold : Nat := 5
  recovery_timeout : Nat := 60
  success_threshold : Nat := 2
  state : BreakerState := .CLOSED
  failure_count : Nat := 0
  success_count : Nat := 0
  last_failure_time : Option ℤ := none
deriving DecidableEq, Repr

/-- The server's breaker: thresholds 5 / 60 s / 2, initial state CLOSED. -/
def initialBreaker : CircuitBreaker := {}

/-- Python `int()` truncation of the retry hint; on the integer time model
it is the identity, kept as a named step to mirror the source. -/
def pyIntTruncation (x : ℤ) : ℤ := x

inductive GateStep where
  | rejectOpen (remaining : ℤ)
  | proceed (cb : CircuitBreaker)
  | pythonTypeError
deriving DecidableEq, Repr

/-- First locked section of `CircuitBreaker.call` at entry time `now`. -/
def gateCheck (cb : CircuitBreaker) (now : ℤ) : GateStep :=
  if cb.state = .OPEN then
    match cb.last_failure_time with
    | none => .pythonTypeError
    | some lf =>
      if now - lf ≥ (cb.recovery_timeout : ℤ) then
        .proceed { cb with state := .HALF_OPEN, success_count := 0 }
      else
        .rejectOpen (pyIntTruncation ((cb.recovery_timeout : ℤ) - (now - lf)))
  else .proceed cb

/-- Post-call locked section after the guarded call returned normally. -/
def onSuccess (cb : CircuitBreaker) : CircuitBreaker :=
  let cb1 := { cb with failure_count := 0 }
  if cb1.state = .HALF_OPEN then
    let cb2 := { cb1 with success_count := cb1.success_count + 1 }
    if cb2.success_count ≥ cb2.success_threshold then
      { cb2 with state := .CLOSED, success_count := 0 }
    else cb2
  else cb1

/-- Post-call locked section after the guarded call raised, at failure time
`t`. -/
def onFailure (cb : CircuitBreaker) (t : ℤ) : CircuitBreaker :=
  let cb1 := { cb with
    failure_count := cb.failure_count + 1
    last_failure_time := some t
    success_count := 0 }
  if cb1.state = .HALF_OPEN then { cb1 with state := .OPEN }
  else if cb1.failure_count ≥ cb1.failure_threshold then { cb1 with state := .OPEN }
  else cb1

inductive BreakerCallResult where
  | rejected (remaining : ℤ)
  | typeError
  | ran (ok : Bool)
deriving DecidableEq, Repr

/-- `CircuitBreaker.call`: gate at entry time `t1`; if the gate proceeds,
the guarded function runs and its outcome `ok` is recorded (failure time
`t2`).  A rejected call never invokes the function and leaves the breaker
untouched. -/
def breakerCall (cb : CircuitBreaker) (t1 t2 : ℤ) (ok : Bool) :
    BreakerCallResult × CircuitBreaker :=
  match gateCheck cb t1 with
  | .rejectOpen r => (.rejected r, cb)
  | .pythonTypeError => (.typeError, cb)
  | .proceed cb1 =>
    if ok then (.ran true, onSuccess cb1) else (.ran false, onFailure cb1 t2)

/-! ## `Connection.execute` and `ConnectionPool.execute` (oracle_jdbc.py) -/

/-- The executor's one-line JSON reply
`{'success': bool, 'rows': [...], 'count': int, 'error': str?}`; row payloads
are kept opaque. -/
structure ExecResult where
  success : Bool
  rows : List String := []
  count : Nat := 0
  error : Option String := none
deriving DecidableEq, Repr

/-- What happens on the wire during one `Connection.execute` call. -/
inductive TransportEvent where
  /-- The child replied with one well-formed JSON line. -/
  | reply (r : ExecResult)
  /-- `self.process.poll() is not None` during the read loop. -/
  | processDied
  /-- `self.process.stdin.write(...)` raised. -/
  | stdinWriteFailed
  /-- `json.loads(result_line)` raised. -/
  | stdoutMalformed
  /-- The wall clock passed `timeout` before a line arrived. -/
  | timedOut
deriving DecidableEq, Repr

/-- State of one pooled connection; `restarts` counts `stop(); start()`
cycles performed by the pool (instrumentation only — it drives no
behaviour). -/
structure ConnState where
  connection_id : Nat
  running : Bool
  is_busy : Bool
  restarts : Nat := 0
deriving DecidableEq, Repr

inductive ConnCallOutcome where
  /-- The initial liveness check raised `RuntimeError` (process not running). -/
  | raised (msg : String)
  /-- The call returned a result dict (every exception inside the `try`
  block is caught and converted to `{'success': False, 'error': ...}`). -/
  | returned (r : ExecResult)
deriving DecidableEq, Repr

/-- Text of the exception converted into the error dict; the texts of
`OSError` / `json.JSONDecodeError` come from the standard library and are
abstracted by constructor name. -/
def transportErrorText (id : Nat) : TransportEvent → String
  | .reply _ => ""
  | .processDied => s!"Connection {id} died unexpectedly"
  | .stdinWriteFailed => "stdin write failed"
  | .stdoutMalformed => "stdout malformed"
  | .timedOut => "Query timeout after 5.0s"

/-- `Connection.execute`: raises only when the process is not running at
entry; every exception raised inside the `try` block (write failure, read
of a dead process, malformed JSON, timeout) is caught and returned as
`{'success': False, 'error': 'Connection error: ...'}`. -/
def connExecute (c : ConnState) (ev : TransportEvent) : ConnCallOutcome :=
  if !c.running then .raised s!"Connection {c.connection_id} is not running"
  else
    match ev with
    | .reply r => .returned r
    | e => .returned { success := false
                       error := some ("Connection error: " ++ transportErrorText c.connection_id e) }

/-- One pass of the `for conn in self.connections` scan in
`ConnectionPool.execute`: the first non-busy live connection is called; if
the call returns (normally or with an error dict) the result is returned at
once; if it raises, the connection is stopped and restarted and the scan
continues with the next connection. -/
def poolScanPass (evs : Nat → TransportEvent) :
    List ConnState → Option ExecResult × List ConnState
  | [] => (none, [])
  | c :: rest =>
    if !c.is_busy && c.running then
      match connExecute c (evs c.connection_id) with
      | .returned r => (some r, c :: rest)
      | .raised _ =>
        let restarted := { c with running := true, restarts := c.restarts + 1 }
        let tail := poolScanPass evs rest
        (tail.1, restarted :: tail.2)
    else
      let tail := poolScanPass evs rest
      (tail.1, c :: tail.2)

/-- `ConnectionPool.execute`, one iteration of the retry loop; when no
connection is available the (eventual) `max_wait` timeout error of the
outer `while` loop is returned. -/
def poolExecute (evs : Nat → TransportEvent) (conns : List ConnState) :
    ExecResult × List ConnState :=
  match poolScanPass evs conns with
  | (some r, conns') => (r, conns')
  | (none, conns') =>
    ({ success := false, error := some "No available connections after 30.0s" }, conns')

/-! ## The `preview_query` and `query_oracle` branches of `call_tool`
(oracle_mcp_server.py)

The JSON payloads sent back as `TextContent` are modelled as tagged values
carrying exactly the fields the handler fills in.  The fresh random token of
`secrets.token_hex(16)` and the transport events of the executor children
are supplied as parameters. -/

/-- The `preview_response` JSON object (fields actually computed by the
handler; constant explanatory strings are omitted). -/
structure PreviewResponse where
  query_to_execute : String
  safe_query_with_limit : Option String
  is_safe : Bool
  complexity_score : Nat
  warnings : List String
  error_message : Option String
  row_limit_will_be_applied : Bool
  approval_token : String
  expires_in_seconds : Nat := 300
deriving DecidableEq, Repr

/-- `call_tool("preview_query", ...)`: `None` on the missing-query error
path, otherwise the preview response; the tracker is updated by
`generate_approval_token`. -/
def previewQuery (sha : String → String) (q : String) (freshToken : String)
    (now : ℤ) (tr : ApprovalTracker) : Option PreviewResponse × ApprovalTracker :=
  if q = "" then (none, tr)
  else
    let validation := validateStr q
    let safeQuery := wrapStr q
    let rowLimitApplied := safeQuery ≠ q
    let (token, tr') := generateApprovalToken sha tr q freshToken now
    (some { query_to_execute := q
            safe_query_with_limit := if rowLimitApplied then some safeQuery else none
            is_safe := validation.is_safe
            complexity_score := validation.complexity_score
            warnings := validation.warnings
            error_message := if !validation.is_safe then validation.error_message else none
            row_limit_will_be_applied := rowLimitApplied
            approval_token := token },
     tr')

/-- Outcome of `call_tool("query_oracle", ...)`, one constructor per return
site of the handler. -/
inductive QueryOracleResponse where
  | missingQuery
  | approvalDenied (msg : String)
  | rateLimited (msg : String)
  | blocked (error : Option String) (score : Nat) (warnings : List String)
  | circuitOpen (remaining : ℤ)
  | breakerTypeError
  | execFailed (error : String)
  | succeeded (rowCount : Nat) (rows : List String) (score : Nat)
      (warnings : List String) (rowLimitApplied : Option Nat)
deriving DecidableEq, Repr

/-- The process-wide singletons touched by `query_oracle`. -/
structure ServerState where
  rate : RateLimiter
  tracker : ApprovalTracker
  breaker : CircuitBreaker
  conns : List ConnState
deriving DecidableEq, Repr

/-- `call_tool("query_oracle", ...)`: approval verification (consuming the
token) comes first, then the rate limiter, then re-validation, row-limit
wrapping, and the circuit-breaker-guarded pool call.  `pool.execute` never
raises, so the breaker records a success whenever its gate proceeds. -/
def queryOracle (sha : String → String) (evs : Nat → TransportEvent)
    (q token : String) (now : ℤ) (st : ServerState) :
    QueryOracleResponse × ServerState :=
  if q = "" then (.missingQuery, st)
  else
    let ((approved, approvalError), tr') := verifyApproval sha st.tracker q token now
    let st1 := { st with tracker := tr' }
    if !approved then (.approvalDenied approvalError, st1)
    else
      let ((allowed, rateError), rate') := isAllowed st1.rate now
      let st2 := { st1 with rate := rate' }
      if !allowed then (.rateLimited rateError, st2)
      else
        let validation := validateStr q
        if !validation.is_safe then
          (.blocked validation.error_message validation.complexity_score validation.warnings,
           st2)
        else
          let safeQuery := wrapStr q
          match gateCheck st2.breaker now with
          | .rejectOpen r => (.circuitOpen r, st2)
          | .pythonTypeError => (.breakerTypeError, st2)
          | .proceed cb1 =>
            let (result, conns') := poolExecute evs st2.conns
            let st3 := { st2 with breaker := onSuccess cb1, conns := conns' }
            if result.success then
              (.succeeded result.count result.rows validation.complexity_score
                 validation.warnings
                 (if safeQuery ≠ q then some defaultValidator.max_rows else none),
               st3)
            else
              (.execFailed (result.error.getD "Unknown error"), st3)

/-! ## Helper lemmas -/

theorem findSome?_isSome_of_mem {α β : Type} {l : List α} {f : α → Option β} {a : α}
    (ha : a ∈ l) (hf : (f a).isSome) : (l.findSome? f).isSome := by
  induction l with
  | nil => cases ha
  | cons x xs ih =>
    rw [List.findSome?_cons]
    cases hx : f x with
    | some b => simp
    | none =>
      rcases List.mem_cons.mp ha with rfl | hmem
      · rw [hx] at hf; simp at hf
      · exact ih hmem

theorem head?_dropWhile_not (p : Char → Bool) (l : List Char) {c : Char}
    (h : (l.dropWhile p).head? = some c) : p c = false := by
  induction l with
  | nil => simp [List.dropWhile] at h
  | cons x xs ih =>
    by_cases hx : p x
    · rw [List.dropWhile_cons_of_pos hx] at h; exact ih h
    · rw [List.dropWhile_cons_of_neg hx] at h
      simp at h
      subst h
      simpa using hx

theorem assocFind_filter_ne (k : String) (l : List (String × ApprovalRecord)) :
    assocFind k (l.filter fun p => p.1 ≠ k) = none := by
  induction l with
  | nil => rfl
  | cons x xs ih =>
    cases x with
    | mk k' v =>
      by_cases hx : k' = k
      · simpa [List.filter_cons, hx] using ih
      · simp only [List.filter_cons]
        rw [show (decide ((k', v).1 ≠ k)) = true by simpa using hx]
        simp only [if_pos]
        simp only [assocFind]
        rw [if_neg hx]
        exact ih

theorem assocFind_none_of_filter (k : String) (p : String × ApprovalRecord → Bool)
    (l : List (String × ApprovalRecord)) (h : assocFind k l = none) :
    assocFind k (l.filter p) = none := by
  induction l with
  | nil => rfl
  | cons x xs ih =>
    cases x with
    | mk k' v =>
      simp only [assocFind] at h
      by_cases hk : k' = k
      · rw [if_pos hk] at h; cases h
      · rw [if_neg hk] at h
        simp only [List.filter_cons]
        by_cases hp : p (k', v)
        · rw [if_pos hp]
          simp only [assocFind]; rw [if_neg hk]
          exact ih h
        · rw [if_neg hp]; exact ih h

theorem assocFind_assocSet (k : String) (v : ApprovalRecord)
    (l : List (String × ApprovalRecord)) : assocFind k (assocSet k v l) = some v := by
  induction l with
  | nil => simp [assocSet, assocFind]
  | cons x xs ih =>
    cases x with
    | mk k' v' =>
      by_cases hk : k' = k
      · simp [assocSet, hk, assocFind]
      · simp only [assocSet]
        rw [if_neg hk]
        simp only [assocFind]
        rw [if_neg hk]
        exact ih

theorem assocFind_filter_of_keep (k : String) (p : String × ApprovalRecord → Bool)
    (l : List (String × ApprovalRecord)) {r : ApprovalRecord}
    (h : assocFind k l = some r) (hp : p (k, r) = true) :
    assocFind k (l.filter p) = some r := by
  induction l with
  | nil => cases h
  | cons x xs ih =>
    cases x with
    | mk k' v' =>
      simp only [assocFind] at h
      by_cases hk : k' = k
      · rw [if_pos hk] at h
        injection h with h'
        subst hk; subst h'
        simp only [List.filter_cons, hp, if_pos]
        simp [assocFind]
      · rw [if_neg hk] at h
        simp only [List.filter_cons]
        by_cases hx : p (k', v')
        · rw [if_pos hx]
          simp only [assocFind]
          rw [if_neg hk]
          exact ih h
        · rw [if_neg hx]; exact ih h

theorem self_eq_dropWhile_rev_append (p : Char → Bool) (Y : List Char) :
    Y = (Y.reverse.dropWhile p).reverse ++ (Y.reverse.takeWhile p).reverse := by
  conv_lhs => rw [← List.reverse_reverse Y, ← List.takeWhile_append_dropWhile p Y.reverse]
  rw [List.reverse_append]

theorem pyStrip_head?_not_space (l : List Char) {c : Char}
    (h : (pyStrip l).head? = some c) : isSpaceChar c = false := by
  unfold pyStrip at h
  have hheadY : (l.dropWhile isSpaceChar).head? = some c := by
    rw [self_eq_dropWhile_rev_append isSpaceChar (l.dropWhile isSpaceChar), List.head?_append]
    rw [h]
    simp [Option.or]
  exact head?_dropWhile_not isSpaceChar l hheadY

theorem pyStrip_getLast?_not_space (l : List Char) {c : Char}
    (h : (pyStrip l).getLast? = some c) : isSpaceChar c = false := by
  unfold pyStrip at h
  rw [List.getLast?_reverse] at h
  exact head?_dropWhile_not isSpaceChar _ h

theorem pyStrip_eq_self_of (l : List Char)
    (h1 : ∀ c, l.head? = some c → isSpaceChar c = false)
    (h2 : ∀ c, l.getLast? = some c → isSpaceChar c = false) : pyStrip l = l := by
  have hfront : l.dropWhile isSpaceChar = l := by
    cases l with
    | nil => rfl
    | cons x xs =>
      have := h1 x (by simp)
      simp [List.dropWhile_cons, this]
  have hback : l.reverse.dropWhile isSpaceChar = l.reverse := by
    cases hl : l.reverse with
    | nil => rfl
    | cons x xs =>
      have hx : l.getLast? = some x := by
        rw [← List.head?_reverse, hl]; simp
      have := h2 x hx
      rw [List.dropWhile_cons, this]
      simp
  unfold pyStrip
  rw [hfront, hback, List.reverse_reverse]

theorem pyStrip_idem (l : List Char) : pyStrip (pyStrip l) = pyStrip l :=
  pyStrip_eq_self_of _ (fun _ h => pyStrip_head?_not_space l h)
    (fun _ h => pyStrip_getLast?_not_space l h)

theorem scanPat_append_of_all (p : Option Char → List Char → Bool) (B : List Char)
    (hB : ∀ prev, scanPat p prev B = true) :
    ∀ (A : List Char) (prev : Option Char), scanPat p prev (A ++ B) = true := by
  intro A
  induction A with
  | nil => intro prev; simpa using hB prev
  | cons a A' ih =>
    intro prev
    show scanPat p prev (a :: (A' ++ B)) = true
    rw [scanPat]
    rw [ih (some a)]
    simp

/-- The fourteen distinct whole-word blocked keywords of the claim (the
claim's fifteenth entry, `UNION ALL`, contains `UNION` as a whole word, so
it is subsumed by the `UNION` case). -/
def blockedKeywordList : List String :=
  ["DROP", "TRUNCATE", "DELETE", "INSERT", "UPDATE", "MERGE", "ALTER",
   "CREATE", "EXEC", "EXECUTE", "CALL", "GRANT", "REVOKE", "UNION"]

theorem blockedHit_isSome {u : List Char} {kw : String}
    (hmem : kw ∈ blockedKeywordList) (hs : kwSearch kw.data u = true) :
    (blockedHit u).isSome := by
  fin_cases hmem
  · exact findSome?_isSome_of_mem
      (show ("\\bDROP\\b", kwSearch "DROP".data) ∈ blockedPatterns by
        repeat first | exact List.Mem.head _ | apply List.Mem.tail)
      (by simp [hs])
  · exact findSome?_isSome_of_mem
      (show ("\\bTRUNCATE\\b", kwSearch "TRUNCATE".data) ∈ blockedPatterns by
        repeat first | exact List.Mem.head _ | apply List.Mem.tail)
      (by simp [hs])
  · exact findSome?_isSome_of_mem
      (show ("\\bDELETE\\b", kwSearch "DELETE".data) ∈ blockedPatterns by
        repeat first | exact List.Mem.head _ | apply List.Mem.tail)
      (by simp [hs])
  · exact findSome?_isSome_of_mem
      (show ("\\bINSERT\\b", kwSearch "INSERT".data) ∈ blockedPatterns by
        repeat first | exact List.Mem.head _ | apply List.Mem.tail)
      (by simp [hs])
  · exact findSome?_isSome_of_mem
      (show ("\\bUPDATE\\b", kwSearch "UPDATE".data) ∈ blockedPatterns by
        repeat first | exact List.Mem.head _ | apply List.Mem.tail)
      (by simp [hs])
  · exact findSome?_isSome_of_mem
      (show ("\\bMERGE\\b", kwSearch "MERGE".data) ∈ blockedPatterns by
        repeat first | exact List.Mem.head _ | apply List.Mem.tail)
      (by simp [hs])
  · exact findSome?_isSome_of_mem
      (show ("\\bALTER\\b", kwSearch "ALTER".data) ∈ blockedPatterns by
        repeat first | exact List.Mem.head _ | apply List.Mem.tail)
      (by simp [hs])
  · exact findSome?_isSome_of_mem
      (show ("\\bCREATE\\b", kwSearch "CREATE".data) ∈ blockedPatterns by
        repeat first | exact List.Mem.head _ | apply List.Mem.tail)
      (by simp [hs])
  · exact findSome?_isSome_of_mem
      (show ("\\bEXEC\\b", kwSearch "EXEC".data) ∈ blockedPatterns by
        repeat first | exact List.Mem.head _ | apply List.Mem.tail)
      (by simp [hs])
  · exact findSome?_isSome_of_mem
      (show ("\\bEXECUTE\\b", kwSearch "EXECUTE".data) ∈ blockedPatterns by
        repeat first | exact List.Mem.head _ | apply List.Mem.tail)
      (by simp [hs])
  · exact findSome?_isSome_of_mem
      (show ("\\bCALL\\b", kwSearch "CALL".data) ∈ blockedPatterns by
        repeat first | exact List.Mem.head _ | apply List.Mem.tail)
      (by simp [hs])
  · exact findSome?_isSome_of_mem
      (show ("\\bGRANT\\b", kwSearch "GRANT".data) ∈ blockedPatterns by
        repeat first | exact List.Mem.head _ | apply List.Mem.tail)
      (by simp [hs])
  · exact findSome?_isSome_of_mem
      (show ("\\bREVOKE\\b", kwSearch "REVOKE".data) ∈ blockedPatterns by
        repeat first | exact List.Mem.head _ | apply List.Mem.tail)
      (by simp [hs])
  · exact findSome?_isSome_of_mem
      (show ("\\bUNION\\b", kwSearch "UNION".data) ∈ blockedPatterns by
        repeat first | exact List.Mem.head _ | apply List.Mem.tail)
      (by simp [hs])

/-! ## Claim C1 -/

/-- C1 (counterexample): the claim asserts that a blocked keyword appearing
behind a comment still makes `validate` report `is_safe = false`, and in
particular that `validate("SELECT * FROM users -- DELETE FROM users")` is
unsafe.  On the code the opposite holds: the query contains `DELETE` as a
whole word, yet `validate` strips the comment (removing the `DELETE`) and
reports `is_safe = true`. -/
theorem C1_counterexample :
    kwSearch "DELETE".data (upperL "SELECT * FROM users -- DELETE FROM users".data) = true ∧
      (validateStr "SELECT * FROM users -- DELETE FROM users").is_safe = true := by
  constructor
  · decide
  · decide

/-- C1 (amended): for every query whose comment-stripped form still contains
a blocked keyword — case-insensitively, as a whole word — `validate` returns
`is_safe = false`.  Keywords appearing only inside comments are removed by
the stripping and do not trigger blocking. -/
theorem C1_blocked_keyword_unsafe (q : List Char) (kw : String)
    (hmem : kw ∈ blockedKeywordList)
    (hs : kwSearch kw.data (upperL (stripSqlComments q)) = true) :
    (validate defaultValidator q).is_safe = false := by
  have hSome := blockedHit_isSome hmem hs
  obtain ⟨pat, hpat⟩ := Option.isSome_iff_exists.mp hSome
  unfold validate validateStripped
  simp only [hpat]

/-- C1 (witness): the amended theorem applied to a concrete blocked query. -/
theorem C1_witness :
    (validate defaultValidator "SELECT * FROM users WHERE id = 1; DROP TABLE users".data).is_safe
      = false :=
  C1_blocked_keyword_unsafe _ "DROP" (by decide) (by decide)

/-! ## Claim C2 -/

/-- A letter followed by identifier-class characters — the fully anchored
part of the identifier regex, as the claim describes it. -/
def letterThenIdentChars (l : List Char) : Bool :=
  match l with
  | [] => false
  | c :: rest => c.isAlpha && rest.all isIdentChar

theorem ident_tail_eq (rest : List Char) :
    (decide (rest.dropWhile isIdentChar = []) || decide (rest.dropWhile isIdentChar = ['\n'])) =
      (rest.all isIdentChar ||
        (decide (rest.getLast? = some '\n') && rest.dropLast.all isIdentChar)) := by
  induction rest with
  | nil => decide
  | cons c rest' ih =>
    by_cases hc : isIdentChar c
    · rw [List.dropWhile_cons_of_pos hc]
      cases rest' with
      | nil => simp [hc]
      | cons d t =>
        have e1 : (c :: d :: t).all isIdentChar = (d :: t).all isIdentChar := by
          simp [hc]
        have e2 : (c :: d :: t).getLast? = (d :: t).getLast? := by simp
        have e3 : ((c :: d :: t).dropLast).all isIdentChar =
            ((d :: t).dropLast).all isIdentChar := by simp [hc]
        rw [e1, e2, e3]
        exact ih
    · rw [List.dropWhile_cons_of_neg hc]
      cases rest' with
      | nil => simp [hc, List.getLast?]
      | cons d t =>
        have f1 : (c :: d :: t).all isIdentChar = false := by simp [hc]
        have f3 : ((c :: d :: t).dropLast).all isIdentChar = false := by simp [hc]
        have f4 : decide ((c :: d :: t) = ['\n']) = false := by simp
        rw [f1, f3, f4]
        simp

theorem letter_factor (c : Char) (rest : List Char) :
    (letterThenIdentChars (c :: rest) ||
      (decide ((c :: rest).getLast? = some '\n') &&
        letterThenIdentChars ((c :: rest).dropLast))) =
      (c.isAlpha && (rest.all isIdentChar ||
        (decide (rest.getLast? = some '\n') && rest.dropLast.all isIdentChar))) := by
  cases rest with
  | nil => simp [letterThenIdentChars, List.getLast?]
  | cons d t =>
    have e2 : (c :: d :: t).getLast? = (d :: t).getLast? := by simp
    have e3 : (c :: d :: t).dropLast = c :: (d :: t).dropLast := by simp
    rw [e2, e3]
    show (c.isAlpha && (d :: t).all isIdentChar ||
        (decide ((d :: t).getLast? = some '\n') &&
          (c.isAlpha && ((d :: t).dropLast).all isIdentChar))) = _
    cases c.isAlpha <;> simp [Bool.and_comm, Bool.and_left_comm]

/-- C2 (counterexample): the claim says every input containing a character
outside `[A-Za-z0-9_$#]` is rejected; but Python's `$` also matches just
before one trailing newline, so `validate_identifier("A\n")` returns `True`
although `'\n'` is outside the class. -/
theorem C2_counterexample :
    validateIdentifier "A\n" = true ∧
      '\n' ∈ "A\n".data ∧ isIdentChar '\n' = false := by
  refine ⟨by decide, by decide, by decide⟩

/-- C2 (amended): `validate_identifier` accepts `s` iff `s` has at most 30
characters and either `s` itself, or `s` minus a single trailing newline,
consists of a letter followed by characters of `[A-Za-z0-9_$#]` (inputs that
are empty, overlong, start with a non-letter, or contain another character
outside the class — other than one trailing newline — are rejected). -/
theorem C2_identifier_accepts_iff (s : String) :
    validateIdentifier s = (decide (s.length ≤ 30) &&
      (letterThenIdentChars s.data ||
        (decide (s.data.getLast? = some '\n') && letterThenIdentChars s.data.dropLast))) := by
  rcases hd : s.data with _ | ⟨c, rest⟩
  · simp only [validateIdentifier, hd]
    simp [letterThenIdentChars, List.getLast?]
  · simp only [validateIdentifier, hd]
    by_cases hlen : s.length > 30
    · rw [if_neg (by simp), if_pos hlen]
      rw [show decide (s.length ≤ 30) = false by simp; omega]
      simp
    · rw [if_neg (by simp), if_neg hlen]
      rw [show decide (s.length ≤ 30) = true by simp; omega]
      rw [Bool.true_and, letter_factor]
      simp only [identRegexMatch]
      rw [← ident_tail_eq rest]

/-! ## Claim C5 -/

/-- C5 (counterexample): comment stripping is not idempotent — removing a
block comment can create a new `--` line comment — so validating the
stripped copy can differ from validating the original.  Here the original
hides `DELETE` behind a hyphen, a block comment and another hyphen (blocked
after one strip), while the stripped copy loses the whole tail (safe). -/
theorem C5_counterexample :
    validateStr (stripSqlCommentsStr "SELECT * FROM users WHERE id = 1 -/*c*/- DELETE FROM x") ≠
      validateStr "SELECT * FROM users WHERE id = 1 -/*c*/- DELETE FROM x" := by
  decide

/-- C5 (amended): whenever comment stripping is idempotent on `q` — in
particular whenever stripping produces no new comment markers — validating
the stripped copy agrees with validating `q` itself:
`validate(strip_comments(q)) = validate(q)`. -/
theorem C5_validate_strip_invariant (v : QueryValidatorConfig) (q : List Char)
    (h : stripSqlComments (stripSqlComments q) = stripSqlComments q) :
    validate v (stripSqlComments q) = validate v q := by
  unfold validate
  rw [h]

/-- C5 (witness): the amended theorem applied to a query with an ordinary
comment, whose stripped form strips to itself. -/
theorem C5_witness :
    validate defaultValidator (stripSqlComments "SELECT * FROM users -- note".data) =
      validate defaultValidator "SELECT * FROM users -- note".data :=
  C5_validate_strip_invariant defaultValidator _ (by decide)

/-! ## Claims C6 and C7 — row-limit wrapping -/

theorem scan_rownum_and (prev : Option Char) :
    scanPat rownumNumMatchAt prev (" AND ROWNUM <= 10000".data) = true := by
  have hstep : scanPat rownumNumMatchAt prev (" AND ROWNUM <= 10000".data) =
      (rownumNumMatchAt prev (" AND ROWNUM <= 10000".data) ||
        scanPat rownumNumMatchAt (some ' ') ("AND ROWNUM <= 10000".data)) := rfl
  have h1 : rownumNumMatchAt prev (" AND ROWNUM <= 10000".data) = false := by
    simp [rownumNumMatchAt, dropLit]
  rw [hstep, h1, Bool.false_or]
  decide

theorem scan_rownum_where (prev : Option Char) :
    scanPat rownumNumMatchAt prev (" WHERE ROWNUM <= 10000".data) = true := by
  have hstep : scanPat rownumNumMatchAt prev (" WHERE ROWNUM <= 10000".data) =
      (rownumNumMatchAt prev (" WHERE ROWNUM <= 10000".data) ||
        scanPat rownumNumMatchAt (some ' ') ("WHERE ROWNUM <= 10000".data)) := rfl
  have h1 : rownumNumMatchAt prev (" WHERE ROWNUM <= 10000".data) = false := by
    simp [rownumNumMatchAt, dropLit]
  rw [hstep, h1, Bool.false_or]
  decide

theorem scan_rownum_paren (prev : Option Char) :
    scanPat rownumNumMatchAt prev ("\n) WHERE ROWNUM <= 10000".data) = true := by
  have hstep : scanPat rownumNumMatchAt prev ("\n) WHERE ROWNUM <= 10000".data) =
      (rownumNumMatchAt prev ("\n) WHERE ROWNUM <= 10000".data) ||
        scanPat rownumNumMatchAt (some '\n') (") WHERE ROWNUM <= 10000".data)) := rfl
  have h1 : rownumNumMatchAt prev ("\n) WHERE ROWNUM <= 10000".data) = false := by
    simp [rownumNumMatchAt, dropLit]
  rw [hstep, h1, Bool.false_or]
  decide

theorem upperL_append (a b : List Char) : upperL (a ++ b) = upperL a ++ upperL b := by
  simp [upperL]

theorem hasRownum_append (s B : List Char)
    (hB : ∀ prev, scanPat rownumNumMatchAt prev (upperL B) = true) :
    hasRownumConstraint (s ++ B) = true := by
  unfold hasRownumConstraint
  rw [upperL_append]
  simp only []
  rw [scanPat_append_of_all _ _ hB (upperL s) none]
  simp

theorem pyStrip_cons_space {c : Char} (hc : isSpaceChar c = true) (l : List Char) :
    pyStrip (c :: l) = pyStrip l := by
  unfold pyStrip
  rw [List.dropWhile_cons_of_pos hc]

theorem pyStrip_append_space (l : List Char) {c : Char} (hc : isSpaceChar c = true) :
    pyStrip (l ++ [c]) = pyStrip l := by
  unfold pyStrip
  rw [List.dropWhile_append]
  by_cases h : (l.dropWhile isSpaceChar).isEmpty
  · rw [if_pos h]
    rw [List.isEmpty_iff.mp h]
    simp [List.dropWhile, hc]
  · rw [if_neg h]
    rw [List.reverse_append]
    simp only [List.reverse_cons, List.reverse_nil, List.nil_append, List.singleton_append]
    rw [List.dropWhile_cons_of_pos hc]

theorem pyStrip_wrap_gen (M : List Char)
    (hh : ∀ c, M.head? = some c → isSpaceChar c = false)
    (hl : ∀ c, M.getLast? = some c → isSpaceChar c = false) :
    pyStrip ('\n' :: (M ++ ['\n'])) = M := by
  rw [pyStrip_cons_space (by decide) (M ++ ['\n']),
    pyStrip_append_space M (by decide)]
  exact pyStrip_eq_self_of M hh hl

theorem wrap_eq_of_rownum (v : QueryValidatorConfig) (q : List Char)
    (h : hasRownumConstraint (pyStrip q) = true) :
    wrapWithRowLimit v q = pyStrip q := by
  unfold wrapWithRowLimit
  simp only [h, if_pos]

theorem wrap_arg_shape (s : List Char) :
    "\nSELECT * FROM (\n    ".data ++ s ++ "\n) WHERE ROWNUM <= ".data ++
        (toString (10000 : Nat)).data ++ ['\n'] =
      '\n' :: (("SELECT * FROM (\n    ".data ++ s ++ "\n) WHERE ROWNUM <= 10000".data)
        ++ ['\n']) := by
  have htail : "\n) WHERE ROWNUM <= ".data ++ ((toString (10000 : Nat)).data ++ ['\n']) =
      "\n) WHERE ROWNUM <= 10000".data ++ ['\n'] := by decide
  simp only [List.append_assoc]
  rw [htail]
  rfl

theorem wrapped_head_not_space (s : List Char) (c : Char)
    (h : (("SELECT * FROM (\n    ".data ++ s ++ "\n) WHERE ROWNUM <= 10000".data)).head? =
      some c) : isSpaceChar c = false := by
  rw [show "SELECT * FROM (\n    ".data = 'S' :: "ELECT * FROM (\n    ".data from rfl] at h
  simp only [List.cons_append, List.head?_cons] at h
  have : c = 'S' := by injection h with h'; exact h'.symm
  subst this
  decide

theorem wrapped_last_not_space (s : List Char) (c : Char)
    (h : (("SELECT * FROM (\n    ".data ++ s ++ "\n) WHERE ROWNUM <= 10000".data)).getLast? =
      some c) : isSpaceChar c = false := by
  rw [show "\n) WHERE ROWNUM <= 10000".data =
      "\n) WHERE ROWNUM <= 1000".data ++ ['0'] from rfl] at h
  rw [show "SELECT * FROM (\n    ".data ++ s ++
        ("\n) WHERE ROWNUM <= 1000".data ++ ['0']) =
      ("SELECT * FROM (\n    ".data ++ s ++ "\n) WHERE ROWNUM <= 1000".data) ++ ['0'] from by
    simp [List.append_assoc]] at h
  rw [List.getLast?_concat] at h
  have : c = '0' := by injection h with h'; exact h'.symm
  subst this
  decide

theorem wrap_eq_of_orderBy (q : List Char)
    (h1 : hasRownumConstraint (pyStrip q) = false)
    (h2 : containsSub "ORDER BY".data (upperL (pyStrip q)) = true) :
    wrapWithRowLimit defaultValidator q =
      "SELECT * FROM (\n    ".data ++ pyStrip q ++ "\n) WHERE ROWNUM <= 10000".data := by
  unfold wrapWithRowLimit
  simp only [h1, h2, Bool.false_eq_true, if_false, if_true]
  rw [show (toString defaultValidator.max_rows).data = (toString (10000 : Nat)).data from rfl]
  rw [wrap_arg_shape (pyStrip q)]
  exact pyStrip_wrap_gen _ (wrapped_head_not_space (pyStrip q)) (wrapped_last_not_space (pyStrip q))

theorem wrap_eq_of_where (q : List Char)
    (h1 : hasRownumConstraint (pyStrip q) = false)
    (h2 : containsSub "ORDER BY".data (upperL (pyStrip q)) = false)
    (h3 : containsSub "WHERE".data (upperL (pyStrip q)) = true) :
    wrapWithRowLimit defaultValidator q = pyStrip q ++ " AND ROWNUM <= 10000".data := by
  unfold wrapWithRowLimit
  simp only [h1, h2, h3, Bool.false_eq_true, if_false, if_true]
  simp only [List.append_assoc]
  rfl

theorem wrap_eq_of_noWhere (q : List Char)
    (h1 : hasRownumConstraint (pyStrip q) = false)
    (h2 : containsSub "ORDER BY".data (upperL (pyStrip q)) = false)
    (h3 : containsSub "WHERE".data (upperL (pyStrip q)) = false) :
    wrapWithRowLimit defaultValidator q = pyStrip q ++ " WHERE ROWNUM <= 10000".data := by
  unfold wrapWithRowLimit
  simp only [h1, h2, h3, Bool.false_eq_true, if_false, if_true]
  simp only [List.append_assoc]
  rfl

/-- C6 (counterexample): `"SELECT * FROM u WHERE ROWNUM <= x"` contains no
`ROWNUM <op> <number>` predicate (no number follows the operator), and it
contains a WHERE clause, so the claim requires `" AND ROWNUM <= 10000"` to be
appended; but the second regex of `_has_rownum_constraint`
(`WHERE\s+ROWNUM\s*<=`, which requires no number) also suppresses wrapping,
and the query is returned unchanged. -/
theorem C6_counterexample :
    scanPat rownumNumMatchAt none (upperL "SELECT * FROM u WHERE ROWNUM <= x".data) = false ∧
      wrapStr "SELECT * FROM u WHERE ROWNUM <= x" = "SELECT * FROM u WHERE ROWNUM <= x" := by
  refine ⟨by decide, by decide⟩

/-- C6 (amended): `wrap_with_row_limit` acts by cases on the
whitespace-stripped query: if `_has_rownum_constraint` holds — a
`ROWNUM <op> <number>` predicate, or the numberless `WHERE ROWNUM <=`
pattern — the stripped query is returned as is; else if it contains
`ORDER BY` it is wrapped as `SELECT * FROM (\n    query\n) WHERE ROWNUM <=
10000`; else ` AND ROWNUM <= 10000` is appended when a WHERE exists, and
` WHERE ROWNUM <= 10000` otherwise. -/
theorem C6_wrap_cases (q : List Char) :
    (hasRownumConstraint (pyStrip q) = true →
      wrapWithRowLimit defaultValidator q = pyStrip q) ∧
    (hasRownumConstraint (pyStrip q) = false →
      containsSub "ORDER BY".data (upperL (pyStrip q)) = true →
      wrapWithRowLimit defaultValidator q =
        "SELECT * FROM (\n    ".data ++ pyStrip q ++ "\n) WHERE ROWNUM <= 10000".data) ∧
    (hasRownumConstraint (pyStrip q) = false →
      containsSub "ORDER BY".data (upperL (pyStrip q)) = false →
      containsSub "WHERE".data (upperL (pyStrip q)) = true →
      wrapWithRowLimit defaultValidator q = pyStrip q ++ " AND ROWNUM <= 10000".data) ∧
    (hasRownumConstraint (pyStrip q) = false →
      containsSub "ORDER BY".data (upperL (pyStrip q)) = false →
      containsSub "WHERE".data (upperL (pyStrip q)) = false →
      wrapWithRowLimit defaultValidator q = pyStrip q ++ " WHERE ROWNUM <= 10000".data) :=
  ⟨fun h => wrap_eq_of_rownum defaultValidator q h,
   fun h1 h2 => wrap_eq_of_orderBy q h1 h2,
   fun h1 h2 h3 => wrap_eq_of_where q h1 h2 h3,
   fun h1 h2 h3 => wrap_eq_of_noWhere q h1 h2 h3⟩

/-- C6 (witness): the WHERE branch of the amended case analysis at a
concrete query. -/
theorem C6_witness :
    wrapWithRowLimit defaultValidator "SELECT * FROM u WHERE id=1".data =
      pyStrip "SELECT * FROM u WHERE id=1".data ++ " AND ROWNUM <= 10000".data :=
  (C6_wrap_cases "SELECT * FROM u WHERE id=1".data).2.2.1 (by decide) (by decide) (by decide)

/-- C7 (counterexample): for the empty query, `wrap("")` is
`" WHERE ROWNUM <= 10000"` — which does contain a ROWNUM predicate — yet
`wrap(wrap(""))` re-strips the leading space and differs from `wrap("")`. -/
theorem C7_counterexample :
    hasRownumConstraint (wrapStr "").data = true ∧
      wrapStr (wrapStr "") ≠ wrapStr "" := by
  refine ⟨by decide, by decide⟩

/-- C7 (amended): for every query whose whitespace-trimmed form is nonempty,
the row-limit wrap is idempotent: `wrap(wrap(q)) = wrap(q)` (and in each of
these cases `wrap(q)` indeed contains a ROWNUM predicate, as the claim
supposes).  Only whitespace-only queries violate the claim, because the
`WHERE`-appending branch then produces a leading space that a second wrap
strips off. -/
theorem C7_wrap_idempotent (q : List Char) (hq : pyStrip q ≠ []) :
    wrapWithRowLimit defaultValidator (wrapWithRowLimit defaultValidator q) =
      wrapWithRowLimit defaultValidator q := by
  by_cases h1 : hasRownumConstraint (pyStrip q) = true
  · rw [wrap_eq_of_rownum _ _ h1,
      wrap_eq_of_rownum defaultValidator (pyStrip q) (by rw [pyStrip_idem]; exact h1)]
    exact pyStrip_idem q
  · rw [Bool.not_eq_true] at h1
    by_cases h2 : containsSub "ORDER BY".data (upperL (pyStrip q)) = true
    · rw [wrap_eq_of_orderBy q h1 h2]
      have hstrip : pyStrip ("SELECT * FROM (\n    ".data ++ pyStrip q ++
            "\n) WHERE ROWNUM <= 10000".data) =
          "SELECT * FROM (\n    ".data ++ pyStrip q ++ "\n) WHERE ROWNUM <= 10000".data :=
        pyStrip_eq_self_of _ (wrapped_head_not_space (pyStrip q))
          (wrapped_last_not_space (pyStrip q))
      have hR : hasRownumConstraint (pyStrip ("SELECT * FROM (\n    ".data ++ pyStrip q ++
            "\n) WHERE ROWNUM <= 10000".data)) = true := by
        rw [hstrip]
        exact hasRownum_append _ _ (fun prev => by
          rw [show upperL ("\n) WHERE ROWNUM <= 10000".data) =
              "\n) WHERE ROWNUM <= 10000".data from by decide]
          exact scan_rownum_paren prev)
      rw [wrap_eq_of_rownum _ _ hR, hstrip]
    · rw [Bool.not_eq_true] at h2
      by_cases h3 : containsSub "WHERE".data (upperL (pyStrip q)) = true
      · rw [wrap_eq_of_where q h1 h2 h3]
        have hhead : ∀ c, (pyStrip q ++ " AND ROWNUM <= 10000".data).head? = some c →
            isSpaceChar c = false := by
          intro c hc
          obtain ⟨d, s', hds⟩ : ∃ d s', pyStrip q = d :: s' := by
            cases hsq : pyStrip q with
            | nil => exact absurd hsq hq
            | cons d s' => exact ⟨d, s', rfl⟩
          rw [hds] at hc
          simp only [List.cons_append, List.head?_cons] at hc
          have hcd : c = d := by injection hc with h'; exact h'.symm
          subst hcd
          exact pyStrip_head?_not_space q (by rw [hds]; rfl)
        have hlast : ∀ c, (pyStrip q ++ " AND ROWNUM <= 10000".data).getLast? = some c →
            isSpaceChar c = false := by
          intro c hc
          rw [show " AND ROWNUM <= 10000".data = " AND ROWNUM <= 1000".data ++ ['0'] from rfl,
            ← List.append_assoc, List.getLast?_concat] at hc
          have hc0 : c = '0' := by injection hc with h'; exact h'.symm
          subst hc0
          decide
        have hstrip : pyStrip (pyStrip q ++ " AND ROWNUM <= 10000".data) =
            pyStrip q ++ " AND ROWNUM <= 10000".data :=
          pyStrip_eq_self_of _ hhead hlast
        have hR : hasRownumConstraint (pyStrip (pyStrip q ++ " AND ROWNUM <= 10000".data)) =
            true := by
          rw [hstrip]
          exact hasRownum_append _ _ (fun prev => by
            rw [show upperL (" AND ROWNUM <= 10000".data) =
                " AND ROWNUM <= 10000".data from by decide]
            exact scan_rownum_and prev)
        rw [wrap_eq_of_rownum _ _ hR, hstrip]
      · rw [Bool.not_eq_true] at h3
        rw [wrap_eq_of_noWhere q h1 h2 h3]
        have hhead : ∀ c, (pyStrip q ++ " WHERE ROWNUM <= 10000".data).head? = some c →
            isSpaceChar c = false := by
          intro c hc
          obtain ⟨d, s', hds⟩ : ∃ d s', pyStrip q = d :: s' := by
            cases hsq : pyStrip q with
            | nil => exact absurd hsq hq
            | cons d s' => exact ⟨d, s', rfl⟩
          rw [hds] at hc
          simp only [List.cons_append, List.head?_cons] at hc
          have hcd : c = d := by injection hc with h'; exact h'.symm
          subst hcd
          exact pyStrip_head?_not_space q (by rw [hds]; rfl)
        have hlast : ∀ c, (pyStrip q ++ " WHERE ROWNUM <= 10000".data).getLast? = some c →
            isSpaceChar c = false := by
          intro c hc
          rw [show " WHERE ROWNUM <= 10000".data = " WHERE ROWNUM <= 1000".data ++ ['0'] from
            rfl, ← List.append_assoc, List.getLast?_concat] at hc
          have hc0 : c = '0' := by injection hc with h'; exact h'.symm
          subst hc0
          decide
        have hstrip : pyStrip (pyStrip q ++ " WHERE ROWNUM <= 10000".data) =
            pyStrip q ++ " WHERE ROWNUM <= 10000".data :=
          pyStrip_eq_self_of _ hhead hlast
        have hR : hasRownumConstraint (pyStrip (pyStrip q ++ " WHERE ROWNUM <= 10000".data)) =
            true := by
          rw [hstrip]
          exact hasRownum_append _ _ (fun prev => by
            rw [show upperL (" WHERE ROWNUM <= 10000".data) =
                " WHERE ROWNUM <= 10000".data from by decide]
            exact scan_rownum_where prev)
        rw [wrap_eq_of_rownum _ _ hR, hstrip]

/-- C7 (witness): idempotence of the wrap at a concrete query. -/
theorem C7_witness :
    wrapWithRowLimit defaultValidator
        (wrapWithRowLimit defaultValidator "SELECT * FROM u".data) =
      wrapWithRowLimit defaultValidator "SELECT * FROM u".data :=
  C7_wrap_idempotent "SELECT * FROM u".data (by decide)

/-! ## Claim C3 -/

theorem verifyApproval_ok_iff (sha : String → String) (tr : ApprovalTracker)
    (q tok : String) (now : ℤ) :
    ((verifyApproval sha tr q tok now).1).1 = true ↔
      (tok ≠ "" ∧ ∃ r, assocFind tok (cleanupExpired tr now).approvals = some r ∧
        hashQuery sha q = r.query_hash) := by
  unfold verifyApproval
  by_cases h0 : tok = ""
  · simp [h0]
  · rw [if_neg h0]
    split
    next heq => simp [h0, heq]
    next rec heq =>
      by_cases hh : hashQuery sha q ≠ rec.query_hash
      · rw [if_pos hh]
        rw [heq]
        constructor
        · intro hfalse; cases hfalse
        · rintro ⟨-, r, hr, hhash⟩
          injection hr with hr'
          subst hr'
          exact absurd hhash hh
      · rw [if_neg hh]
        push_neg at hh
        simp [h0, heq, hh]

theorem verifyApproval_ok_erases (sha : String → String) (tr : ApprovalTracker)
    (q tok : String) (now : ℤ)
    (h : ((verifyApproval sha tr q tok now).1).1 = true) :
    assocFind tok ((verifyApproval sha tr q tok now).2).approvals = none := by
  unfold verifyApproval at h ⊢
  by_cases h0 : tok = ""
  · simp [h0] at h
  · rw [if_neg h0] at h ⊢
    split at h
    next heq => cases h
    next rec heq =>
      by_cases hh : hashQuery sha q ≠ rec.query_hash
      · rw [if_pos hh] at h; cases h
      · rw [if_neg hh]
        exact assocFind_filter_ne tok _

theorem verifyApproval_none_fails (sha : String → String) (tr : ApprovalTracker)
    (q tok : String) (now : ℤ)
    (h : assocFind tok tr.approvals = none) :
    ((verifyApproval sha tr q tok now).1).1 = false := by
  rw [Bool.eq_false_iff]
  intro hok
  obtain ⟨-, r, hr, -⟩ := (verifyApproval_ok_iff sha tr q tok now).mp hok
  rw [show (cleanupExpired tr now).approvals =
      tr.approvals.filter fun p => !(now - p.2.timestamp > tr.token_expiry) from rfl] at hr
  rw [assocFind_none_of_filter tok _ tr.approvals h] at hr
  cases hr

/-- C3: `verify_approval` succeeds iff the token is non-empty, still present
after the expiry sweep, and the query fingerprint (`sha` of the lowercased,
whitespace-collapsed query) equals the stored one; success deletes the
record, so an immediately repeated call with the same token fails; and each
failure path returns its dedicated reason (missing token / invalid-or-
expired / query mismatch). -/
theorem C3_verify_and_consume (sha : String → String) (tr : ApprovalTracker)
    (q tok : String) (now : ℤ) :
    (((verifyApproval sha tr q tok now).1).1 = true ↔
      (tok ≠ "" ∧ ∃ r, assocFind tok (cleanupExpired tr now).approvals = some r ∧
        hashQuery sha q = r.query_hash)) ∧
    (((verifyApproval sha tr q tok now).1).1 = true →
      assocFind tok ((verifyApproval sha tr q tok now).2).approvals = none ∧
      ∀ now' : ℤ,
        ((verifyApproval sha ((verifyApproval sha tr q tok now).2) q tok now').1).1 = false) ∧
    (tok = "" → (verifyApproval sha tr q tok now).1 = (false, approvalMissingMsg)) ∧
    (tok ≠ "" → assocFind tok (cleanupExpired tr now).approvals = none →
      (verifyApproval sha tr q tok now).1 = (false, approvalInvalidMsg)) ∧
    (∀ r : ApprovalRecord, tok ≠ "" →
      assocFind tok (cleanupExpired tr now).approvals = some r →
      hashQuery sha q ≠ r.query_hash →
      (verifyApproval sha tr q tok now).1 = (false, approvalMismatchMsg)) := by
  refine ⟨verifyApproval_ok_iff sha tr q tok now, ?_, ?_, ?_, ?_⟩
  · intro hok
    refine ⟨verifyApproval_ok_erases sha tr q tok now hok, fun now' => ?_⟩
    exact verifyApproval_none_fails sha _ q tok now'
      (verifyApproval_ok_erases sha tr q tok now hok)
  · intro h0
    unfold verifyApproval
    rw [if_pos h0]
  · intro h0 hfind
    unfold verifyApproval
    rw [if_neg h0, hfind]
  · intro r h0 hfind hh
    unfold verifyApproval
    rw [if_neg h0, hfind]
    simp [hh]

/-- C3 (witness): a concrete successful verification through the theorem's
iff, with the identity standing in for the SHA-256 hex digest. -/
theorem C3_witness :
    ((verifyApproval (fun s => s)
        ⟨300, [("tok1", ⟨"select 1 from dual", 0, "SELECT 1 FROM DUAL"⟩)]⟩
        "SELECT 1 FROM DUAL" "tok1" 10).1).1 = true :=
  (C3_verify_and_consume (fun s => s)
      ⟨300, [("tok1", ⟨"select 1 from dual", 0, "SELECT 1 FROM DUAL"⟩)]⟩
      "SELECT 1 FROM DUAL" "tok1" 10).1.mpr
    ⟨by decide, ⟨"select 1 from dual", 0, "SELECT 1 FROM DUAL"⟩, by decide, by decide⟩

/-! ## Claim C4 -/

/-- C4 (counterexample): with a saturated rate window and a still-valid
approval token, `query_oracle` returns the rate-limit error — yet the token
is gone from the tracker, because the handler verifies and consumes the
approval before consulting the rate limiter (the claim asserts the opposite
order). -/
theorem C4_counterexample :
    (queryOracle (fun s => s) (fun _ => .timedOut) "SELECT 1" "tokA" 0
        ⟨⟨60, 60, List.replicate 60 0⟩,
         ⟨300, [("tokA", ⟨"select 1", 0, "SELECT 1"⟩)]⟩, initialBreaker, []⟩).1 =
      .rateLimited "Rate limit exceeded: 60 requests per 60 seconds" ∧
    ((queryOracle (fun s => s) (fun _ => .timedOut) "SELECT 1" "tokA" 0
        ⟨⟨60, 60, List.replicate 60 0⟩,
         ⟨300, [("tokA", ⟨"select 1", 0, "SELECT 1"⟩)]⟩, initialBreaker, []⟩).2).tracker.approvals
      = [] := by
  refine ⟨by decide, by decide⟩

/-- C4 (amended): in `query_oracle` the approval token is verified and
consumed before the rate limiter is consulted; consequently an execute call
that is denied by the rate limiter has already consumed its valid approval
token (the token is absent from the tracker afterwards). -/
theorem C4_approval_consumed_before_rate_limit (sha : String → String)
    (evs : Nat → TransportEvent) (q tok : String) (now : ℤ) (st : ServerState)
    (hq : q ≠ "")
    (hv : ((verifyApproval sha st.tracker q tok now).1).1 = true)
    (hr : ((isAllowed st.rate now).1).1 = false) :
    (queryOracle sha evs q tok now st).1 =
        .rateLimited ((isAllowed st.rate now).1).2 ∧
      assocFind tok ((queryOracle sha evs q tok now st).2).tracker.approvals = none := by
  have herase := verifyApproval_ok_erases sha st.tracker q tok now hv
  unfold queryOracle
  rw [if_neg hq]
  rcases hveq : verifyApproval sha st.tracker q tok now with ⟨⟨approved, aerr⟩, tr'⟩
  rw [hveq] at hv herase
  simp only at hv
  subst hv
  rcases hra : isAllowed st.rate now with ⟨⟨allowed, rerr⟩, rate'⟩
  rw [hra] at hr
  simp only at hr
  subst hr
  simp [hveq, hra]
  exact herase

/-- C4 (witness): the amended theorem at the concrete saturated state. -/
theorem C4_witness :
    (queryOracle (fun s => s) (fun _ => .timedOut) "SELECT 2" "tokB" 0
        ⟨⟨60, 60, List.replicate 60 0⟩,
         ⟨300, [("tokB", ⟨"select 2", 0, "SELECT 2"⟩)]⟩, initialBreaker, []⟩).1 =
        .rateLimited ((isAllowed ⟨60, 60, List.replicate 60 0⟩ 0).1).2 ∧
      assocFind "tokB"
        ((queryOracle (fun s => s) (fun _ => .timedOut) "SELECT 2" "tokB" 0
          ⟨⟨60, 60, List.replicate 60 0⟩,
           ⟨300, [("tokB", ⟨"select 2", 0, "SELECT 2"⟩)]⟩, initialBreaker, []⟩).2).tracker.approvals
        = none :=
  C4_approval_consumed_before_rate_limit (fun s => s) (fun _ => .timedOut) "SELECT 2" "tokB" 0
    _ (by decide) (by decide) (by decide)

/-! ## Claim C8 — circuit breaker -/

def applyFailureCalls (cb : CircuitBreaker) (ts : List ℤ) : CircuitBreaker :=
  ts.foldl (fun c t => (breakerCall c t t false).2) cb

def applySuccessCalls (cb : CircuitBreaker) (ts : List ℤ) : CircuitBreaker :=
  ts.foldl (fun c t => (breakerCall c t t true).2) cb

theorem gateCheck_not_open (cb : CircuitBreaker) (t : ℤ) (h : cb.state ≠ .OPEN) :
    gateCheck cb t = .proceed cb := by
  unfold gateCheck
  rw [if_neg h]

theorem breakerCall_fail_not_open (cb : CircuitBreaker) (t : ℤ) (h : cb.state ≠ .OPEN) :
    (breakerCall cb t t false).2 = onFailure cb t := by
  unfold breakerCall
  rw [gateCheck_not_open cb t h]
  rfl

theorem breakerCall_ok_not_open (cb : CircuitBreaker) (t : ℤ) (h : cb.state ≠ .OPEN) :
    (breakerCall cb t t true).2 = onSuccess cb := by
  unfold breakerCall
  rw [gateCheck_not_open cb t h]
  rfl

theorem onFailure_closed_continue (cb : CircuitBreaker) (t : ℤ)
    (hst : cb.state = .CLOSED) (hlt : cb.failure_count + 1 < cb.failure_threshold) :
    (onFailure cb t).state = .CLOSED ∧
      (onFailure cb t).failure_count = cb.failure_count + 1 ∧
      (onFailure cb t).failure_threshold = cb.failure_threshold := by
  unfold onFailure
  rw [if_neg (by simp [hst]), if_neg (by simp; omega)]
  simp [hst]

theorem onFailure_closed_trip (cb : CircuitBreaker) (t : ℤ)
    (hst : cb.state = .CLOSED) (hge : cb.failure_count + 1 ≥ cb.failure_threshold) :
    (onFailure cb t).state = .OPEN ∧ (onFailure cb t).last_failure_time = some t := by
  unfold onFailure
  rw [if_neg (by simp [hst]), if_pos (by simpa using hge)]
  simp

theorem failures_open (ts : List ℤ) : ∀ (cb : CircuitBreaker) (t : ℤ),
    cb.state = .CLOSED → ts.getLast? = some t →
    cb.failure_count + ts.length = cb.failure_threshold →
    (applyFailureCalls cb ts).state = .OPEN ∧
      (applyFailureCalls cb ts).last_failure_time = some t := by
  induction ts with
  | nil => intro cb t _ hlast _; cases hlast
  | cons t0 rest ih =>
    intro cb t hst hlast hcount
    have hnotopen : cb.state ≠ .OPEN := by rw [hst]; intro hc; cases hc
    have hstep : applyFailureCalls cb (t0 :: rest) = applyFailureCalls (onFailure cb t0) rest := by
      unfold applyFailureCalls
      rw [List.foldl_cons, breakerCall_fail_not_open cb t0 hnotopen]
    cases rest with
    | nil =>
      have ht : t = t0 := by
        have : some t0 = some t := by simpa using hlast
        injection this with h'
        exact h'.symm
      subst ht
      have hthr : cb.failure_count + 1 ≥ cb.failure_threshold := by
        simp at hcount; omega
      rw [hstep]
      unfold applyFailureCalls
      simp only [List.foldl_nil]
      exact onFailure_closed_trip cb t hst hthr
    | cons t1 rest' =>
      rw [hstep]
      have hlt : cb.failure_count + 1 < cb.failure_threshold := by
        simp [List.length_cons] at hcount; omega
      obtain ⟨h1, h2, h3⟩ := onFailure_closed_continue cb t0 hst hlt
      apply ih (onFailure cb t0) t h1
      · simpa using hlast
      · rw [h2, h3]
        simp [List.length_cons] at hcount ⊢
        omega

theorem onSuccess_halfopen_continue (cb : CircuitBreaker)
    (hst : cb.state = .HALF_OPEN) (hlt : cb.success_count + 1 < cb.success_threshold) :
    (onSuccess cb).state = .HALF_OPEN ∧
      (onSuccess cb).success_count = cb.success_count + 1 ∧
      (onSuccess cb).success_threshold = cb.success_threshold := by
  unfold onSuccess
  rw [if_pos (by simp [hst]), if_neg (by simp; omega)]
  simp [hst]

theorem onSuccess_halfopen_close (cb : CircuitBreaker)
    (hst : cb.state = .HALF_OPEN) (hge : cb.success_count + 1 ≥ cb.success_threshold) :
    (onSuccess cb).state = .CLOSED ∧ (onSuccess cb).success_count = 0 := by
  unfold onSuccess
  rw [if_pos (by simp [hst]), if_pos (by simpa using hge)]
  simp

theorem successes_close (ts : List ℤ) : ∀ cb : CircuitBreaker,
    cb.state = .HALF_OPEN → ts ≠ [] →
    cb.success_count + ts.length = cb.success_threshold →
    (applySuccessCalls cb ts).state = .CLOSED ∧
      (applySuccessCalls cb ts).success_count = 0 := by
  induction ts with
  | nil => intro cb _ hne _; exact absurd rfl hne
  | cons t0 rest ih =>
    intro cb hst hne hcount
    have hnotopen : cb.state ≠ .OPEN := by rw [hst]; intro hc; cases hc
    have hstep : applySuccessCalls cb (t0 :: rest) = applySuccessCalls (onSuccess cb) rest := by
      unfold applySuccessCalls
      rw [List.foldl_cons, breakerCall_ok_not_open cb t0 hnotopen]
    cases rest with
    | nil =>
      have hthr : cb.success_count + 1 ≥ cb.success_threshold := by
        simp at hcount; omega
      rw [hstep]
      unfold applySuccessCalls
      simp only [List.foldl_nil]
      exact onSuccess_halfopen_close cb hst hthr
    | cons t1 rest' =>
      rw [hstep]
      have hlt : cb.success_count + 1 < cb.success_threshold := by
        simp [List.length_cons] at hcount; omega
      obtain ⟨h1, h2, h3⟩ := onSuccess_halfopen_continue cb hst hlt
      apply ih (onSuccess cb) h1 (by intro hc; cases hc)
      rw [h2, h3]
      simp [List.length_cons] at hcount ⊢
      omega

theorem onFailure_halfopen (cb : CircuitBreaker) (t : ℤ) (hst : cb.state = .HALF_OPEN) :
    (onFailure cb t).state = .OPEN ∧ (onFailure cb t).last_failure_time = some t := by
  unfold onFailure
  rw [if_pos (by simp [hst])]
  simp

theorem onSuccess_zeroes (cb : CircuitBreaker) : (onSuccess cb).failure_count = 0 := by
  unfold onSuccess
  by_cases h : ({ cb with failure_count := 0 } : CircuitBreaker).state = .HALF_OPEN
  · rw [if_pos h]
    simp only []
    by_cases h2 : cb.success_count + 1 ≥ cb.success_threshold
    · rw [if_pos (by simpa using h2)]
    · rw [if_neg (by simpa using h2)]
  · rw [if_neg h]

theorem gate_open_reject (cb : CircuitBreaker) (t1 t2 : ℤ) (ok : Bool) (lf : ℤ)
    (hst : cb.state = .OPEN) (hlf : cb.last_failure_time = some lf)
    (hlt : t1 - lf < (cb.recovery_timeout : ℤ)) :
    breakerCall cb t1 t2 ok =
      (.rejected (pyIntTruncation ((cb.recovery_timeout : ℤ) - (t1 - lf))), cb) := by
  unfold breakerCall gateCheck
  rw [if_pos hst, hlf]
  simp only []
  rw [if_neg (by omega)]

theorem gate_open_halfopen (cb : CircuitBreaker) (t1 : ℤ) (lf : ℤ)
    (hst : cb.state = .OPEN) (hlf : cb.last_failure_time = some lf)
    (hge : t1 - lf ≥ (cb.recovery_timeout : ℤ)) :
    gateCheck cb t1 = .proceed { cb with state := .HALF_OPEN, success_count := 0 } := by
  unfold gateCheck
  rw [if_pos hst, hlf]
  simp only []
  rw [if_pos hge]

/-- C8: the three-state machine of `CircuitBreaker.call`.  Starting CLOSED
with zero failures, `failure_threshold` consecutive recorded failures end in
OPEN with the last failure time recorded; while OPEN, a call before
`recovery_timeout` has elapsed is rejected with the remaining seconds, the
state is untouched and the guarded function is not run (the result is the
same for either outcome `ok`); once the timeout has elapsed the gate enters
HALF_OPEN with `success_count = 0`; in HALF_OPEN a failure returns to OPEN
refreshing `last_failure_time`, and `success_threshold` consecutive
successes reach CLOSED; finally, every success zeroes `failure_count`. -/
theorem C8_breaker_state_machine :
    (∀ (ts : List ℤ) (t : ℤ) (cb : CircuitBreaker),
      cb.state = .CLOSED → cb.failure_count = 0 → ts.getLast? = some t →
      ts.length = cb.failure_threshold →
      (applyFailureCalls cb ts).state = .OPEN ∧
        (applyFailureCalls cb ts).last_failure_time = some t) ∧
    (∀ (cb : CircuitBreaker) (t1 t2 : ℤ) (ok : Bool) (lf : ℤ),
      cb.state = .OPEN → cb.last_failure_time = some lf →
      t1 - lf < (cb.recovery_timeout : ℤ) →
      breakerCall cb t1 t2 ok =
        (.rejected (pyIntTruncation ((cb.recovery_timeout : ℤ) - (t1 - lf))), cb)) ∧
    (∀ (cb : CircuitBreaker) (t1 lf : ℤ),
      cb.state = .OPEN → cb.last_failure_time = some lf →
      t1 - lf ≥ (cb.recovery_timeout : ℤ) →
      gateCheck cb t1 = .proceed { cb with state := .HALF_OPEN, success_count := 0 }) ∧
    (∀ (cb : CircuitBreaker) (t : ℤ), cb.state = .HALF_OPEN →
      (onFailure cb t).state = .OPEN ∧ (onFailure cb t).last_failure_time = some t) ∧
    (∀ (ts : List ℤ) (cb : CircuitBreaker),
      cb.state = .HALF_OPEN → cb.success_count = 0 → ts ≠ [] →
      ts.length = cb.success_threshold →
      (applySuccessCalls cb ts).state = .CLOSED ∧
        (applySuccessCalls cb ts).success_count = 0) ∧
    (∀ cb : CircuitBreaker, (onSuccess cb).failure_count = 0) := by
  refine ⟨?_, ?_, ?_, ?_, ?_, onSuccess_zeroes⟩
  · intro ts t cb h1 h2 h3 h4
    exact failures_open ts cb t h1 h3 (by omega)
  · exact fun cb t1 t2 ok lf h1 h2 h3 => gate_open_reject cb t1 t2 ok lf h1 h2 h3
  · exact fun cb t1 lf h1 h2 h3 => gate_open_halfopen cb t1 lf h1 h2 h3
  · exact fun cb t h => onFailure_halfopen cb t h
  · intro ts cb h1 h2 h3 h4
    exact successes_close ts cb h1 h3 (by omega)

/-- C8 (witness): the rejection clause of the state machine at a concrete
OPEN breaker — 30 s after the last failure, the call is rejected with 30 s
remaining and the breaker is untouched. -/
theorem C8_witness :
    breakerCall ⟨5, 60, 2, .OPEN, 5, 0, some 0⟩ 30 30 true =
      (.rejected 30, ⟨5, 60, 2, .OPEN, 5, 0, some 0⟩) :=
  C8_breaker_state_machine.2.1 ⟨5, 60, 2, .OPEN, 5, 0, some 0⟩ 30 30 true 0
    (by decide) (by decide) (by decide)

/-! ## Claim C9 -/

theorem connExecute_transport_error (c : ConnState) (ev : TransportEvent)
    (hrun : c.running = true) (herr : ∀ r, ev ≠ .reply r) :
    connExecute c ev = .returned
      { success := false
        error := some ("Connection error: " ++ transportErrorText c.connection_id ev) } := by
  unfold connExecute
  rw [hrun]
  cases ev with
  | reply r => exact absurd rfl (herr r)
  | processDied => rfl
  | stdinWriteFailed => rfl
  | stdoutMalformed => rfl
  | timedOut => rfl

theorem poolScanPass_transport_error (evs : Nat → TransportEvent) :
    ∀ (pre : List ConnState) (c : ConnState) (rest : List ConnState),
    (∀ c' ∈ pre, (!c'.is_busy && c'.running) = false) →
    c.is_busy = false → c.running = true →
    (∀ r, evs c.connection_id ≠ .reply r) →
    poolScanPass evs (pre ++ c :: rest) =
      (some { success := false
              error := some ("Connection error: " ++
                transportErrorText c.connection_id (evs c.connection_id)) },
       pre ++ c :: rest) := by
  intro pre
  induction pre with
  | nil =>
    intro c rest _ hb hr herr
    show poolScanPass evs (c :: rest) = _
    unfold poolScanPass
    rw [show (!c.is_busy && c.running) = true by rw [hb, hr]; rfl, if_pos rfl]
    rw [connExecute_transport_error c (evs c.connection_id) hr herr]
    rfl
  | cons p pre' ih =>
    intro c rest hpre hb hr herr
    show poolScanPass evs (p :: (pre' ++ c :: rest)) = _
    unfold poolScanPass
    rw [show (!p.is_busy && p.running) = false from hpre p (by simp), if_neg (by simp)]
    rw [ih c rest (fun c' hc' => hpre c' (by simp [hc'])) hb hr herr]
    rfl

/-- C9 (counterexample): a live, idle connection whose stdin write fails
during the pool call.  The claim says the pool stops and restarts that
connection before surfacing the error; in the code the exception is caught
inside `Connection.execute` and returned as an error dict, which the pool
passes straight through — the connection state (restart counter included)
is completely unchanged. -/
theorem C9_counterexample :
    poolExecute (fun _ => .stdinWriteFailed) [⟨0, true, false, 0⟩] =
      ({ success := false
         error := some "Connection error: stdin write failed" },
       [⟨0, true, false, 0⟩]) := by
  decide

/-- C9 (amended): when a transport error (process died mid-call, stdin
write failed, stdout malformed, or timeout) occurs on the first available
connection of the scan, `Connection.execute` catches the exception and
returns `{'success': False, 'error': 'Connection error: ...'}`; the pool
surfaces this error result directly to the caller without stopping or
restarting any connection — the pool state is returned unchanged.  (The
pool's stop-and-restart branch runs only when `Connection.execute` raises,
i.e. when the process is found not running at call entry.) -/
theorem C9_transport_error_surfaced_without_restart (evs : Nat → TransportEvent)
    (pre : List ConnState) (c : ConnState) (rest : List ConnState)
    (hpre : ∀ c' ∈ pre, (!c'.is_busy && c'.running) = false)
    (hb : c.is_busy = false) (hr : c.running = true)
    (herr : ∀ r, evs c.connection_id ≠ .reply r) :
    poolExecute evs (pre ++ c :: rest) =
      ({ success := false
         error := some ("Connection error: " ++
           transportErrorText c.connection_id (evs c.connection_id)) },
       pre ++ c :: rest) := by
  unfold poolExecute
  rw [poolScanPass_transport_error evs pre c rest hpre hb hr herr]

/-- C9 (witness): the amended theorem at a concrete two-connection pool
whose first connection is busy and whose second one times out. -/
theorem C9_witness :
    poolExecute (fun _ => .timedOut) [⟨0, true, true, 0⟩, ⟨1, true, false, 0⟩] =
      ({ success := false
         error := some "Connection error: Query timeout after 5.0s" },
       [⟨0, true, true, 0⟩, ⟨1, true, false, 0⟩]) :=
  C9_transport_error_surfaced_without_restart (fun _ => .timedOut)
    [⟨0, true, true, 0⟩] ⟨1, true, false, 0⟩ []
    (by decide) (by decide) (by decide) (fun r h => by cases h)

/-! ## Claim C10 -/

theorem previewQuery_stores (sha : String → String) (q freshTok : String) (now : ℤ)
    (tr : ApprovalTracker) (hq : q ≠ "") (hexp : 0 ≤ tr.token_expiry) :
    assocFind freshTok ((previewQuery sha q freshTok now tr).2).approvals =
      some ⟨hashQuery sha q, now, ⟨q.data.take 100⟩⟩ := by
  unfold previewQuery
  rw [if_neg hq]
  unfold generateApprovalToken
  simp only []
  unfold cleanupExpired
  exact assocFind_filter_of_keep freshTok _ _
    (assocFind_assocSet freshTok _ tr.approvals)
    (by simp; omega)

theorem previewQuery_resp (sha : String → String) (q freshTok : String) (now : ℤ)
    (tr : ApprovalTracker) (hq : q ≠ "") :
    (previewQuery sha q freshTok now tr).1 =
      some { query_to_execute := q
             safe_query_with_limit := if wrapStr q ≠ q then some (wrapStr q) else none
             is_safe := (validateStr q).is_safe
             complexity_score := (validateStr q).complexity_score
             warnings := (validateStr q).warnings
             error_message :=
               if !(validateStr q).is_safe then (validateStr q).error_message else none
             row_limit_will_be_applied := wrapStr q ≠ q
             approval_token := freshTok } := by
  unfold previewQuery
  rw [if_neg hq]
  rfl

theorem queryOracle_blocks_unsafe_preview (sha : String → String)
    (evs : Nat → TransportEvent) (q freshTok : String) (now : ℤ)
    (tr : ApprovalTracker) (st : ServerState)
    (hq : q ≠ "") (hexp : 0 ≤ tr.token_expiry) (htok : freshTok ≠ "")
    (hst : st.tracker = (previewQuery sha q freshTok now tr).2)
    (hnotsafe : (validateStr q).is_safe = false)
    (hrate : ((isAllowed st.rate now).1).1 = true) :
    (queryOracle sha evs q freshTok now st).1 =
      .blocked (validateStr q).error_message (validateStr q).complexity_score
        (validateStr q).warnings := by
  have hexp2 : (previewQuery sha q freshTok now tr).2.token_expiry = tr.token_expiry := by
    unfold previewQuery
    rw [if_neg hq]
    rfl
  have hfind0 : assocFind freshTok st.tracker.approvals =
      some ⟨hashQuery sha q, now, ⟨q.data.take 100⟩⟩ := by
    rw [hst]
    exact previewQuery_stores sha q freshTok now tr hq hexp
  have hkeep : assocFind freshTok (cleanupExpired st.tracker now).approvals =
      some ⟨hashQuery sha q, now, ⟨q.data.take 100⟩⟩ := by
    unfold cleanupExpired
    exact assocFind_filter_of_keep freshTok _ _ hfind0
      (by simp only []; rw [hst, hexp2]; simp; omega)
  have hok : ((verifyApproval sha st.tracker q freshTok now).1).1 = true :=
    (verifyApproval_ok_iff sha st.tracker q freshTok now).mpr
      ⟨htok, ⟨hashQuery sha q, now, ⟨q.data.take 100⟩⟩, hkeep, rfl⟩
  unfold queryOracle
  rw [if_neg hq]
  rcases hveq : verifyApproval sha st.tracker q freshTok now with ⟨⟨approved, aerr⟩, tr'⟩
  rw [hveq] at hok
  simp only at hok
  subst hok
  rcases hra : isAllowed st.rate now with ⟨⟨allowed, rerr⟩, rate'⟩
  rw [hra] at hrate
  simp only at hrate
  subst hrate
  simp [hveq, hra, hnotsafe]

/-- C10: for every non-empty query — whether or not its validation report is
safe — `preview_query` returns the freshly generated token in the response
(whose validation block reflects `validate(q)` unchanged) and stores a
record binding the token to the query fingerprint at the current time; and
a subsequent `query_oracle` with that token on an unsafe query passes the
approval step and fails only at the re-validation, returning the blocked
report.  Token issuance never consults the validation outcome: the
conclusion holds with no hypothesis on `is_safe`. -/
theorem C10_preview_issues_token_independent_of_safety (sha : String → String)
    (q freshTok : String) (now : ℤ) (tr : ApprovalTracker)
    (hq : q ≠ "") (hexp : 0 ≤ tr.token_expiry) :
    ((previewQuery sha q freshTok now tr).1 =
      some { query_to_execute := q
             safe_query_with_limit := if wrapStr q ≠ q then some (wrapStr q) else none
             is_safe := (validateStr q).is_safe
             complexity_score := (validateStr q).complexity_score
             warnings := (validateStr q).warnings
             error_message :=
               if !(validateStr q).is_safe then (validateStr q).error_message else none
             row_limit_will_be_applied := wrapStr q ≠ q
             approval_token := freshTok }) ∧
    (assocFind freshTok ((previewQuery sha q freshTok now tr).2).approvals =
      some ⟨hashQuery sha q, now, ⟨q.data.take 100⟩⟩) ∧
    (∀ (evs : Nat → TransportEvent) (st : ServerState),
      freshTok ≠ "" → st.tracker = (previewQuery sha q freshTok now tr).2 →
      (validateStr q).is_safe = false → ((isAllowed st.rate now).1).1 = true →
      (queryOracle sha evs q freshTok now st).1 =
        .blocked (validateStr q).error_message (validateStr q).complexity_score
          (validateStr q).warnings) :=
  ⟨previewQuery_resp sha q freshTok now tr hq,
   previewQuery_stores sha q freshTok now tr hq hexp,
   fun evs st htok hst hnotsafe hrate =>
     queryOracle_blocks_unsafe_preview sha evs q freshTok now tr st hq hexp htok hst
       hnotsafe hrate⟩

/-- C10 (witness): previewing the unsafe query `DROP TABLE users` still
issues and stores the token. -/
theorem C10_witness :
    assocFind "tokC"
      ((previewQuery (fun s => s) "DROP TABLE users" "tokC" 7 ⟨300, []⟩).2).approvals =
      some ⟨hashQuery (fun s => s) "DROP TABLE users", 7, "DROP TABLE users"⟩ :=
  (C10_preview_issues_token_independent_of_safety (fun s => s) "DROP TABLE users" "tokC" 7
    ⟨300, []⟩ (by decide) (by decide)).2.1
